import Mathlib

/-!
Verification of the picamera.js capture pipeline (C++ core under `src/`).

The development shallowly embeds the four components the claims are about:

* `ControlManager` (src/core/control_manager.cpp): merge of incoming control
  deltas into a pending set and application onto a capture request.
* `StreamManager` (src/core/stream_manager.cpp): stream configuration, buffer
  allocation and zero-copy mapping.
* `CameraManager::Impl` (src/core/camera_manager.cpp): the orchestrator with
  its completion hot path, `setControls`, `start` and `stop`.
* `JpegEncoder` (src/encoders/jpeg_encoder.cpp): the bounded-queue async
  encoder.

Modelling conventions:

* C++ `float`/`double` control values are only ever copied by the embedded
  code paths, never computed with, so they are carried as opaque `Int` values.
* `std::optional<T>` becomes `Option`.
* A libcamera `ControlList` (`request->controls()`) is modelled as the trace
  of `set` calls performed on it (a list of id/value pairs, later entries
  appended at the tail), which lets theorems talk about what is and is not
  written.
* `std::map` keyed by stream/buffer handles becomes an association list with
  first-match lookup; an insertion conses at the head so that a later
  insertion for the same key shadows an earlier one, matching overwrite
  semantics.
* Calls into libcamera / TurboJPEG are oracles gathered in environment
  structures; undefined behaviour (dereferencing the null `config_`) is
  modelled by an `Option` result where `none` means the program has no
  defined result (crash).
-/

namespace Lcam

/-- Stream types, from `enum class StreamType` in include/common.hpp.
The C++ enumeration order (JPEG first) matters: a value-initialised
`StreamType{}` is `JPEG`, which is what `std::map::operator[]` inserts for a
missing key. -/
inductive StreamType
  | JPEG
  | RGB
  | RAW
deriving DecidableEq, Repr

/-- Stream request, from `struct StreamConfig` in include/common.hpp.
Width/height 0 mean "use camera default". -/
structure StreamConfig where
  type : StreamType
  width : Nat := 0
  height : Nat := 0
deriving DecidableEq, Repr

/-- Sparse control set, from `struct Controls` in include/common.hpp.
Float-valued fields are carried as opaque `Int`s (they are only copied).
`colourGains` is declared `std::optional<std::array<float, 2>>` in the C++;
it is modelled as a list so the explicit `size() >= 2` guard in
`ControlManager::applyControls` (control_manager.cpp:66) stays meaningful. -/
structure Controls where
  exposureMode : Option Int := none
  exposureTime : Option Int := none
  analogueGain : Option Int := none
  afMode : Option Int := none
  afTrigger : Option Int := none
  lensPosition : Option Int := none
  awbMode : Option Int := none
  colourGains : Option (List Int) := none
  brightness : Option Int := none
  contrast : Option Int := none
  saturation : Option Int := none
  sharpness : Option Int := none
  targetFps : Option Int := none
  jpegQuality : Option Int := none
deriving DecidableEq, Repr

/-- Helper from include/common.hpp: `assignIfSet(target, source)` overwrites
`target` only when `source` holds a value. -/
def assignIfSet (target source : Option α) : Option α :=
  match source with
  | some v => some v
  | none => target

/-- Identifiers of device controls that `applyControls` can mention.
`jpegQuality` is part of the ambient control vocabulary but is never the
target of a `set` call in the code; it is included so theorems can state
that no write to it ever occurs. -/
inductive ControlId
  | aeExposureMode
  | exposureTime
  | analogueGain
  | afMode
  | afTrigger
  | lensPosition
  | awbMode
  | colourGains
  | brightness
  | contrast
  | saturation
  | sharpness
  | frameDurationLimits
  | jpegQuality
deriving DecidableEq, Repr

/-- Values written into a request's control list: scalars (ints and opaque
floats) or small arrays (colour gains, frame-duration limits). -/
inductive CtrlValue
  | vInt (v : Int)
  | vList (vs : List Int)
deriving DecidableEq, Repr

/-- A request's control list, modelled as the trace of `set` calls. -/
abbrev RequestControls := List (ControlId × CtrlValue)

/-- Model of `lc::ControlList::set`: record the write. -/
def ctrlSet (req : RequestControls) (id : ControlId) (v : CtrlValue) : RequestControls :=
  req ++ [(id, v)]

/-- Values written for a given control id, in write order. -/
def filterId (id : ControlId) (req : RequestControls) : List CtrlValue :=
  (List.filter (fun e => e.1 == id) req).map Prod.snd

/-- Private state of `ControlManager` (control_manager.hpp): the last applied
and the merged pending control sets. -/
structure ControlManagerState where
  currentControls : Controls := {}
  pendingControls : Controls := {}
deriving DecidableEq, Repr

/-- State threaded through the application phase of
`ControlManager::applyControls`: the request's control list and the two
member control sets. -/
structure ApplyState where
  req : RequestControls
  pending : Controls
  current : Controls

/-- Merge phase of `ControlManager::applyControls`
(control_manager.cpp:12-26): field-wise `assignIfSet` of the new controls
into the pending set. -/
def mergeControls (pending c : Controls) : Controls where
  exposureMode := assignIfSet pending.exposureMode c.exposureMode
  exposureTime := assignIfSet pending.exposureTime c.exposureTime
  analogueGain := assignIfSet pending.analogueGain c.analogueGain
  afMode := assignIfSet pending.afMode c.afMode
  afTrigger := assignIfSet pending.afTrigger c.afTrigger
  lensPosition := assignIfSet pending.lensPosition c.lensPosition
  awbMode := assignIfSet pending.awbMode c.awbMode
  colourGains := assignIfSet pending.colourGains c.colourGains
  brightness := assignIfSet pending.brightness c.brightness
  contrast := assignIfSet pending.contrast c.contrast
  saturation := assignIfSet pending.saturation c.saturation
  sharpness := assignIfSet pending.sharpness c.sharpness
  targetFps := assignIfSet pending.targetFps c.targetFps
  jpegQuality := assignIfSet pending.jpegQuality c.jpegQuality

/-- Block `if (pendingControls_.exposureMode) { ... }`
(control_manager.cpp:31-34). -/
def stepExposureMode (a : ApplyState) : ApplyState :=
  match a.pending.exposureMode with
  | some v => { a with req := ctrlSet a.req .aeExposureMode (.vInt v),
                       current := { a.current with exposureMode := some v } }
  | none => a

/-- Block for `ExposureTime` (control_manager.cpp:36-39). -/
def stepExposureTime (a : ApplyState) : ApplyState :=
  match a.pending.exposureTime with
  | some v => { a with req := ctrlSet a.req .exposureTime (.vInt v),
                       current := { a.current with exposureTime := some v } }
  | none => a

/-- Block for `AnalogueGain` (control_manager.cpp:41-44). -/
def stepAnalogueGain (a : ApplyState) : ApplyState :=
  match a.pending.analogueGain with
  | some v => { a with req := ctrlSet a.req .analogueGain (.vInt v),
                       current := { a.current with analogueGain := some v } }
  | none => a

/-- Block for `AfMode` (control_manager.cpp:46-49). -/
def stepAfMode (a : ApplyState) : ApplyState :=
  match a.pending.afMode with
  | some v => { a with req := ctrlSet a.req .afMode (.vInt v),
                       current := { a.current with afMode := some v } }
  | none => a

/-- Block for `AfTrigger` (control_manager.cpp:51-54): the value is written
to the request and the pending slot is cleared (one-shot); note that the
current set is not updated. -/
def stepAfTrigger (a : ApplyState) : ApplyState :=
  match a.pending.afTrigger with
  | some v => { a with req := ctrlSet a.req .afTrigger (.vInt v),
                       pending := { a.pending with afTrigger := none } }
  | none => a

/-- Block for `LensPosition` (control_manager.cpp:56-59). -/
def stepLensPosition (a : ApplyState) : ApplyState :=
  match a.pending.lensPosition with
  | some v => { a with req := ctrlSet a.req .lensPosition (.vInt v),
                       current := { a.current with lensPosition := some v } }
  | none => a

/-- Block for `AwbMode` (control_manager.cpp:61-64). -/
def stepAwbMode (a : ApplyState) : ApplyState :=
  match a.pending.awbMode with
  | some v => { a with req := ctrlSet a.req .awbMode (.vInt v),
                       current := { a.current with awbMode := some v } }
  | none => a

/-- Block for `ColourGains` (control_manager.cpp:66-70): guarded by
`size() >= 2`; the first two gains are written as a 2-element span. -/
def stepColourGains (a : ApplyState) : ApplyState :=
  match a.pending.colourGains with
  | some g =>
      if 2 ≤ g.length then
        { a with req := ctrlSet a.req .colourGains (.vList (g.take 2)),
                 current := { a.current with colourGains := some g } }
      else a
  | none => a

/-- Block for `Brightness` (control_manager.cpp:72-75). -/
def stepBrightness (a : ApplyState) : ApplyState :=
  match a.pending.brightness with
  | some v => { a with req := ctrlSet a.req .brightness (.vInt v),
                       current := { a.current with brightness := some v } }
  | none => a

/-- Block for `Contrast` (control_manager.cpp:77-80). -/
def stepContrast (a : ApplyState) : ApplyState :=
  match a.pending.contrast with
  | some v => { a with req := ctrlSet a.req .contrast (.vInt v),
                       current := { a.current with contrast := some v } }
  | none => a

/-- Block for `Saturation` (control_manager.cpp:82-85). -/
def stepSaturation (a : ApplyState) : ApplyState :=
  match a.pending.saturation with
  | some v => { a with req := ctrlSet a.req .saturation (.vInt v),
                       current := { a.current with saturation := some v } }
  | none => a

/-- Block for `Sharpness` (control_manager.cpp:87-90). -/
def stepSharpness (a : ApplyState) : ApplyState :=
  match a.pending.sharpness with
  | some v => { a with req := ctrlSet a.req .sharpness (.vInt v),
                       current := { a.current with sharpness := some v } }
  | none => a

/-- Block for `targetFps` (control_manager.cpp:92-99): the fps is converted
to a frame duration `1000000 / fps` microseconds (C++ integer division,
which truncates toward zero) and written as an equal min/max pair. -/
def stepTargetFps (a : ApplyState) : ApplyState :=
  match a.pending.targetFps with
  | some fps =>
      let duration := Int.tdiv 1000000 fps
      { a with req := ctrlSet a.req .frameDurationLimits (.vList [duration, duration]),
               current := { a.current with targetFps := some fps } }
  | none => a

/-- Block for `jpegQuality` (control_manager.cpp:101-104): only the current
snapshot is updated; nothing is written to the request's control list. -/
def stepJpegQuality (a : ApplyState) : ApplyState :=
  match a.pending.jpegQuality with
  | some v => { a with current := { a.current with jpegQuality := some v } }
  | none => a

/-- Application phase of `ControlManager::applyControls`: the fixed field
order of control_manager.cpp:31-104. -/
def applySteps (a : ApplyState) : ApplyState :=
  stepJpegQuality (stepTargetFps (stepSharpness (stepSaturation (stepContrast
    (stepBrightness (stepColourGains (stepAwbMode (stepLensPosition
      (stepAfTrigger (stepAfMode (stepAnalogueGain (stepExposureTime
        (stepExposureMode a)))))))))))))

/-- Model of `ControlManager::applyControls(controls, request)`
(control_manager.cpp:9-105): merge into pending, then apply each pending
field in order onto the request, returning the new manager state and the
request's control list. -/
def applyControls (c : Controls) (req : RequestControls) (s : ControlManagerState) :
    ControlManagerState × RequestControls :=
  let a := applySteps { req := req,
                        pending := mergeControls s.pendingControls c,
                        current := s.currentControls }
  ({ currentControls := a.current, pendingControls := a.pending }, a.req)

/-- Model of `ControlManager::getCurrentControls` (control_manager.cpp:107). -/
def getCurrentControls (s : ControlManagerState) : Controls :=
  s.currentControls

/-- A sequence of further `applyControls` calls, accumulating the writes of
all of them in one trace. -/
def runApplySeq : List Controls → ControlManagerState × RequestControls →
    ControlManagerState × RequestControls
  | [], sr => sr
  | c :: cs, (s, req) => runApplySeq cs (applyControls c req s)

/-- Pixel formats assigned by `StreamManager::configure`, plus opaque device
defaults as produced by `generateConfiguration`. -/
inductive PixelFormat
  | bgr888
  | yuv420
  | sbggr10
  | dev (n : Nat)
deriving DecidableEq, Repr

/-- Roles passed to `generateConfiguration` (stream_manager.cpp:17-48). -/
inductive StreamRole
  | raw
  | stillCapture
deriving DecidableEq, Repr

/-- One entry of a `lc::CameraConfiguration`. `streamId` stands for the
`lc::Stream*` handle attached to the entry. -/
structure ConfiguredStream where
  streamId : Nat
  width : Nat := 0
  height : Nat := 0
  bufferCount : Nat := 0
  pixelFormat : PixelFormat := PixelFormat.dev 0
deriving DecidableEq, Repr

/-- A pre-built capture request: its attached (stream, buffer) pairs and its
control list. -/
structure Request where
  buffers : List (Nat × Nat) := []
  controls : RequestControls := []
deriving DecidableEq, Repr

/-- Private state of `StreamManager` (stream_manager.hpp:65-90). `config` is
`std::unique_ptr<lc::CameraConfiguration> config_`, null (`none`) until
`generateConfiguration` has succeeded. `mappedBuffers` maps a buffer handle
to its mapped byte size. -/
structure SMState where
  config : Option (List ConfiguredStream) := none
  streamTypes : List (Nat × StreamType) := []
  streamBuffers : List (Nat × List Nat) := []
  mappedBuffers : List (Nat × Nat) := []
  requests : List Request := []
  jpegWidth : Nat := 0
  jpegHeight : Nat := 0
deriving DecidableEq, Repr

/-- A freshly constructed `StreamManager` (stream_manager.cpp:7-9): null
configuration, empty maps, no requests. -/
def initSMState : SMState := {}

/-- Oracles for the libcamera calls made by `StreamManager`: configuration
generation, validation (which may adjust the configuration, `none` meaning
Invalid), application, per-stream buffer allocation, the allocated buffer
handles per stream, plane layout, mmap success and request creation. -/
structure CamEnv where
  genConfig : List StreamRole → Option (List ConfiguredStream)
  validate : List ConfiguredStream → Option (List ConfiguredStream)
  applyOk : List ConfiguredStream → Bool
  allocOk : Nat → Bool
  buffersOf : Nat → List Nat
  planesNonempty : Nat → Bool
  mmapOk : Nat → Bool
  createRequestOk : Nat → Bool

/-- Default RAW stream synthesized by `configure` when none is requested
(stream_manager.cpp:26-31). -/
def defaultRawConfig : StreamConfig :=
  { type := StreamType.RAW, width := 2304, height := 1296 }

/-- Role/config list construction of `configure` (stream_manager.cpp:17-48):
RAW first (explicit or default), then one StillCapture role per requested
JPEG/RGB stream; duplicate RAW entries are skipped by the `continue`. -/
def buildRolesConfigs (rawStream : Option StreamConfig)
    (configs : List StreamConfig) : List StreamRole × List StreamConfig :=
  let base :=
    match rawStream with
    | some rs => ([StreamRole.raw], [rs])
    | none => ([StreamRole.raw], [defaultRawConfig])
  configs.foldl
    (fun acc cfg =>
      match cfg.type with
      | StreamType.JPEG => (acc.1 ++ [StreamRole.stillCapture], acc.2 ++ [cfg])
      | StreamType.RGB => (acc.1 ++ [StreamRole.stillCapture], acc.2 ++ [cfg])
      | StreamType.RAW => acc)
    base

/-- Per-index mutation of the generated configuration
(stream_manager.cpp:59-84): apply the requested dimensions (0 keeps the
device default), fix bufferCount at 6, set the pixel format by stream type
and cache the JPEG dimensions. Returns `none` when the generated
configuration has fewer entries than `allConfigs` (an out-of-range `at(i)`
in the C++); extra generated entries are kept unchanged. -/
def configureLoop : List StreamConfig → List ConfiguredStream → Nat → Nat →
    Option (List ConfiguredStream × Nat × Nat)
  | [], rest, jw, jh => some (rest, jw, jh)
  | _ :: _, [], _, _ => none
  | appCfg :: apps, sc :: scs, jw, jh =>
      let sc1 := if 0 < appCfg.width then { sc with width := appCfg.width } else sc
      let sc2 := if 0 < appCfg.height then { sc1 with height := appCfg.height } else sc1
      let sc3 := { sc2 with bufferCount := 6 }
      let sc4 :=
        match appCfg.type with
        | StreamType.RGB => { sc3 with pixelFormat := PixelFormat.bgr888 }
        | StreamType.JPEG => { sc3 with pixelFormat := PixelFormat.yuv420 }
        | StreamType.RAW => { sc3 with pixelFormat := PixelFormat.sbggr10 }
      let jwh :=
        match appCfg.type with
        | StreamType.JPEG => (sc4.width, sc4.height)
        | _ => (jw, jh)
      match configureLoop apps scs jwh.1 jwh.2 with
      | none => none
      | some (rest, jw2, jh2) => some (sc4 :: rest, jw2, jh2)

/-- The `streamTypes_` rebuild of `configure` (stream_manager.cpp:96-99):
`streamTypes_[config_->at(i).stream()] = allConfigs[i].type`. Head insertion
makes a later assignment to the same key shadow an earlier one, matching
`std::map` overwrite. `none` models an out-of-range `at(i)`. -/
def buildStreamTypes : List StreamConfig → List ConfiguredStream →
    List (Nat × StreamType) → Option (List (Nat × StreamType))
  | [], _, acc => some acc
  | _ :: _, [], _ => none
  | a :: apps, cSt :: cs, acc =>
      buildStreamTypes apps cs ((cSt.streamId, a.type) :: acc)

/-- Model of `StreamManager::configure` (stream_manager.cpp:15-102). The
boolean mirrors the C++ return value; `none` models undefined behaviour. -/
def configure (env : CamEnv) (rawStream : Option StreamConfig)
    (configs : List StreamConfig) (s : SMState) : Option (Bool × SMState) :=
  let rc := buildRolesConfigs rawStream configs
  match env.genConfig rc.1 with
  | none => some (false, { s with config := none })
  | some gen =>
      let s1 : SMState := { s with config := some gen, streamTypes := [] }
      match configureLoop rc.2 gen s1.jpegWidth s1.jpegHeight with
      | none => none
      | some (mutated, jw, jh) =>
          let s2 := { s1 with config := some mutated, jpegWidth := jw, jpegHeight := jh }
          match env.validate mutated with
          | none => some (false, s2)
          | some validated =>
              let s3 := { s2 with config := some validated }
              if env.applyOk validated then
                match buildStreamTypes rc.2 validated [] with
                | none => none
                | some st => some (true, { s3 with streamTypes := st })
              else some (false, s3)

/-- Model of `StreamManager::mapBuffer` (stream_manager.cpp:157-189): RAW
buffers are skipped outright (never mapped); otherwise the packed byte size
is computed from the dimensions and the buffer is mmapped. Returns the C++
boolean and the updated `mappedBuffers_` map. -/
def mapBuffer (env : CamEnv) (mapped : List (Nat × Nat)) (buffer : Nat)
    (ty : StreamType) (width height : Nat) : Bool × List (Nat × Nat) :=
  if ty = StreamType.RAW then (true, mapped)
  else if env.planesNonempty buffer = false then (false, mapped)
  else
    let sizeOpt : Option Nat :=
      match ty with
      | StreamType.JPEG => some (width * height * 3 / 2)
      | StreamType.RGB => some (width * height * 3)
      | StreamType.RAW => none
    match sizeOpt with
    | none => (true, mapped)
    | some totalSize =>
        if env.mmapOk buffer then (true, (buffer, totalSize) :: mapped)
        else (false, mapped)

/-- Model of `streamTypes_[stream]` in `allocateBuffers`
(stream_manager.cpp:122): `std::map::operator[]` inserts a value-initialised
`StreamType{}` (the first enumerator, JPEG) for a missing key. -/
def typesGetOrInsert (m : List (Nat × StreamType)) (k : Nat) :
    StreamType × List (Nat × StreamType) :=
  match m.lookup k with
  | some t => (t, m)
  | none => (StreamType.JPEG, (k, StreamType.JPEG) :: m)

/-- The inner buffer loop of `allocateBuffers` (stream_manager.cpp:118-127):
map each allocated buffer, stopping at the first failure. -/
def mapBuffersLoop (env : CamEnv) (ty : StreamType) (width height : Nat) :
    List Nat → List (Nat × Nat) → Bool × List (Nat × Nat)
  | [], mapped => (true, mapped)
  | b :: bs, mapped =>
      match mapBuffer env mapped b ty width height with
      | (false, mapped1) => (false, mapped1)
      | (true, mapped1) => mapBuffersLoop env ty width height bs mapped1

/-- The per-stream allocation loop of `allocateBuffers`
(stream_manager.cpp:106-130). -/
def allocLoop (env : CamEnv) : List ConfiguredStream → SMState → Bool × SMState
  | [], s => (true, s)
  | sc :: rest, s =>
      if env.allocOk sc.streamId = false then (false, s)
      else
        let buffers := env.buffersOf sc.streamId
        let tm := typesGetOrInsert s.streamTypes sc.streamId
        let s1 := { s with streamTypes := tm.2 }
        match mapBuffersLoop env tm.1 sc.width sc.height buffers s1.mappedBuffers with
        | (false, mapped) => (false, { s1 with mappedBuffers := mapped })
        | (true, mapped) =>
            allocLoop env rest
              { s1 with mappedBuffers := mapped,
                        streamBuffers := (sc.streamId, buffers) :: s1.streamBuffers }

/-- Buffer attachment for request index `i` (stream_manager.cpp:141-149):
for each stream, attach its `i`-th buffer when it exists. -/
def requestBuffers (sbs : List (Nat × List Nat)) (cfgs : List ConfiguredStream)
    (i : Nat) : List (Nat × Nat) :=
  match cfgs with
  | [] => []
  | sc :: rest =>
      let bufs := (sbs.lookup sc.streamId).getD []
      match bufs[i]? with
      | some b => (sc.streamId, b) :: requestBuffers sbs rest i
      | none => requestBuffers sbs rest i

/-- The request-creation loop of `allocateBuffers`
(stream_manager.cpp:132-152), over request indices 0..5. -/
def buildRequestsLoop (env : CamEnv) (cfgs : List ConfiguredStream) :
    List Nat → SMState → Bool × SMState
  | [], s => (true, s)
  | i :: rest, s =>
      if env.createRequestOk i = false then (false, s)
      else
        buildRequestsLoop env cfgs rest
          { s with requests :=
              s.requests ++ [{ buffers := requestBuffers s.streamBuffers cfgs i,
                               controls := [] }] }

/-- Model of `StreamManager::allocateBuffers` (stream_manager.cpp:104-155).
Its very first statement, `for (auto &streamCfg : *config_)`, dereferences
the `config_` unique pointer; when `configure` has never run (or its
`generateConfiguration` step failed) `config_` is null and the behaviour is
undefined — modelled as `none`. -/
def allocateBuffers (env : CamEnv) (s : SMState) : Option (Bool × SMState) :=
  match s.config with
  | none => none
  | some cfgs =>
      match allocLoop env cfgs s with
      | (false, s1) => some (false, s1)
      | (true, s1) => some (buildRequestsLoop env cfgs (List.range 6) s1)

/-- Model of `StreamManager::freeBuffers` (stream_manager.cpp:191-207):
unmap everything, release the per-stream pools, drop the requests. -/
def freeBuffers (s : SMState) : SMState :=
  { s with mappedBuffers := [], streamBuffers := [], requests := [] }

/-- Model of `StreamManager::getStreamType` (stream_manager.cpp:215-218):
a stream missing from the map defaults to RAW. -/
def getStreamType (s : SMState) (stream : Nat) : StreamType :=
  (s.streamTypes.lookup stream).getD StreamType.RAW

/-- Delivered events of the completion hot path
(camera_manager.cpp:143-174): synchronous RGB frames and JPEG encode
submissions. -/
inductive Delivery
  | rgbFrame (streamId bufferId size timestamp sequence : Nat)
  | encodeSubmit (streamId bufferId width height : Nat) (quality : Int)
      (timestamp sequence : Nat)
deriving DecidableEq, Repr

/-- Stream handle a delivery came from. -/
def Delivery.streamId : Delivery → Nat
  | .rgbFrame sid _ _ _ _ => sid
  | .encodeSubmit sid _ _ _ _ _ _ => sid

/-- Buffer handle a delivery reads from. -/
def Delivery.bufferId : Delivery → Nat
  | .rgbFrame _ b _ _ _ => b
  | .encodeSubmit _ b _ _ _ _ _ => b

/-- Private state of `CameraManager::Impl` (camera_manager.cpp:181-196)
restricted to what the claims are about. The boolean flags record which
resources are currently held (completion signal connected, device started,
encoder worker running, camera acquired). -/
structure ImplState where
  running : Bool := false
  connected : Bool := false
  deviceStarted : Bool := false
  encoderRunning : Bool := false
  cameraHeld : Bool := true
  initialControls : Controls := {}
  pendingControls : Option Controls := none
  jpegQuality : Int := 85
  cm : ControlManagerState := {}
deriving DecidableEq, Repr

/-- Model of `CameraManager::Impl::setControls` (camera_manager.cpp:101-111):
the jpeg-quality cache is updated immediately and the whole pending set is
replaced (not merged). -/
def Impl.setControls (controls : Controls) (impl : ImplState) : ImplState × Bool :=
  let impl1 :=
    match controls.jpegQuality with
    | some q => { impl with jpegQuality := q }
    | none => impl
  ({ impl1 with pendingControls := some controls }, true)

/-- Model of `CameraManager::Impl::getControls` (camera_manager.cpp:113-115). -/
def Impl.getControls (impl : ImplState) : Controls :=
  getCurrentControls impl.cm

/-- A completed request as seen by `requestComplete`: status, metadata and
attached buffers, plus its control list. -/
structure CompletedRequest where
  cancelled : Bool := false
  sequence : Nat := 0
  timestampOpt : Option Nat := none
  buffers : List (Nat × Nat) := []
  reqControls : RequestControls := []
deriving DecidableEq, Repr

/-- Outcome of one `requestComplete` invocation: the new orchestrator state,
the request control list after pending-control application, the delivered
events and whether the request was requeued. -/
structure CompletionResult where
  impl : ImplState
  trace : RequestControls
  deliveries : List Delivery
  requeued : Bool
deriving DecidableEq, Repr

/-- Buffer classification loop of `requestComplete`
(camera_manager.cpp:143-174): RAW buffers are skipped, missing mapped data
is skipped, RGB is delivered synchronously as a zero-copy view, JPEG is
submitted for encoding with the cached quality and dimensions. -/
def processBuffers (impl : ImplState) (sm : SMState) (ts seq : Nat) :
    List (Nat × Nat) → List Delivery
  | [] => []
  | (stream, buffer) :: rest =>
      let ty := getStreamType sm stream
      if ty = StreamType.RAW then processBuffers impl sm ts seq rest
      else
        match sm.mappedBuffers.lookup buffer with
        | none => processBuffers impl sm ts seq rest
        | some size =>
            match ty with
            | StreamType.RGB =>
                Delivery.rgbFrame stream buffer size ts seq ::
                  processBuffers impl sm ts seq rest
            | StreamType.JPEG =>
                Delivery.encodeSubmit stream buffer sm.jpegWidth sm.jpegHeight
                    impl.jpegQuality ts seq ::
                  processBuffers impl sm ts seq rest
            | StreamType.RAW => processBuffers impl sm ts seq rest

/-- Model of `CameraManager::Impl::requestComplete`
(camera_manager.cpp:125-179): cancelled requests are ignored; otherwise the
pending control set (if any) is applied to this request and cleared, buffers
are classified and delivered, and the request is requeued. -/
def requestComplete (impl : ImplState) (sm : SMState) (req : CompletedRequest) :
    CompletionResult :=
  if req.cancelled then
    { impl := impl, trace := req.reqControls, deliveries := [], requeued := false }
  else
    let st :=
      match impl.pendingControls with
      | some pc =>
          let r := applyControls pc req.reqControls impl.cm
          ({ impl with cm := r.1, pendingControls := none }, r.2)
      | none => (impl, req.reqControls)
    { impl := st.1, trace := st.2,
      deliveries := processBuffers st.1 sm (req.timestampOpt.getD 0) req.sequence
        req.buffers,
      requeued := true }

/-- Model of `CameraManager::Impl::stop` (camera_manager.cpp:87-99): no-op
when not running; otherwise disconnect the completion signal, stop the
device, stop the encoder worker, free the buffers and release the camera. -/
def Impl.stop (impl : ImplState) (sm : SMState) : ImplState × SMState :=
  if impl.running = false then (impl, sm)
  else
    ({ impl with running := false, connected := false, deviceStarted := false,
                 encoderRunning := false, cameraHeld := false },
      freeBuffers sm)

/-- Application of the initial controls to every pre-built request
(camera_manager.cpp:75-77). -/
def applyToRequests (c : Controls) : ControlManagerState → List Request →
    ControlManagerState × List Request
  | cmSt, [] => (cmSt, [])
  | cmSt, r :: rest =>
      let a := applyControls c r.controls cmSt
      let tail := applyToRequests c a.1 rest
      (tail.1, { r with controls := a.2 } :: tail.2)

/-- Model of `CameraManager::Impl::start` (camera_manager.cpp:46-85).
`deviceStartOk` is the oracle for `camera_->start`. On allocation failure
the error callback fires and `false` is returned with nothing started; on
device-start failure the encoder worker is already running and the signal
connected, but `running_` stays false. -/
def Impl.start (env : CamEnv) (deviceStartOk : Bool) (impl : ImplState)
    (sm : SMState) : Option (ImplState × SMState × Bool) :=
  match allocateBuffers env sm with
  | none => none
  | some (false, sm1) => some (impl, sm1, false)
  | some (true, sm1) =>
      let impl1 := { impl with encoderRunning := true, connected := true }
      let ic0 := impl1.initialControls
      let ic1 := if ic0.targetFps = none then { ic0 with targetFps := some 30 } else ic0
      let ic2 := if ic1.jpegQuality = none then { ic1 with jpegQuality := some 85 } else ic1
      let impl2 := { impl1 with initialControls := ic2 }
      match deviceStartOk with
      | false => some (impl2, sm1, false)
      | true =>
          let ar := applyToRequests ic2 impl2.cm sm1.requests
          some ({ impl2 with cm := ar.1, jpegQuality := ic2.jpegQuality.getD 85,
                             deviceStarted := true, running := true },
                { sm1 with requests := ar.2 }, true)

/-- One encode task (`struct Task` in jpeg_encoder.hpp): the owned copy of
the planar frame bytes plus metadata. -/
structure EncTask where
  data : List Nat := []
  width : Nat := 0
  height : Nat := 0
  quality : Int := 0
  timestamp : Nat := 0
  sequence : Nat := 0
deriving DecidableEq, Repr

/-- The copy made at the top of `JpegEncoder::encode`
(jpeg_encoder.cpp:40-42): exactly `width * height * 3 / 2` bytes of the
source planar frame, read through `mem`. -/
def encodeTaskOf (mem : Nat → Nat) (width height : Nat) (quality : Int)
    (timestamp sequence : Nat) : EncTask :=
  { data := (List.range (width * height * 3 / 2)).map mem,
    width := width, height := height, quality := quality,
    timestamp := timestamp, sequence := sequence }

/-- Oracles for TurboJPEG: the output-size bound `tjBufSizeYUV2` and the
compressor `tjCompressFromYUVPlanes`, returning the compressed length on
success and `none` on failure. -/
structure EncEnv where
  tjBufSize : Nat → Nat → Nat
  compress : EncTask → Option Nat

/-- A callback invocation delivered by the encoder worker. -/
structure EncodeEvent where
  type : StreamType
  dataLen : Nat
  timestamp : Nat
  sequence : Nat
deriving DecidableEq, Repr

/-- One iteration of `JpegEncoder::workerThread` on a dequeued task
(jpeg_encoder.cpp:91-135): grow the reusable output buffer to the TurboJPEG
bound when needed, compress, and on success deliver exactly one JPEG frame
whose data is the first `jpegSize` bytes of the output buffer (an
independently owned copy); on failure log and deliver nothing. -/
def workerProcess (env : EncEnv) (buffer : List Nat) (task : EncTask) :
    List EncodeEvent × List Nat :=
  let maxSize := env.tjBufSize task.width task.height
  let buffer1 :=
    if buffer.length < maxSize then buffer ++ List.replicate (maxSize - buffer.length) 0
    else buffer
  match env.compress task with
  | some jpegSize =>
      ([{ type := StreamType.JPEG, dataLen := (buffer1.take jpegSize).length,
          timestamp := task.timestamp, sequence := task.sequence }], buffer1)
  | none => ([], buffer1)

/-- State of the encoder's bounded queue (jpeg_encoder.hpp): the FIFO, the
producers currently blocked inside `encode` (with the task each one wants to
push), the bound and the running flag. The queue mutex serialises all
operations, so each transition below is atomic. -/
structure EncQueueState where
  queue : List EncTask := []
  blocked : List (Nat × EncTask) := []
  maxQueueSize : Nat := 33
  running : Bool := true
deriving DecidableEq, Repr

/-- A producer entering `JpegEncoder::encode` (jpeg_encoder.cpp:44-72) under
the queue mutex: when stopped it returns without queueing; when there is
space it pushes its task; otherwise `cv_.wait` blocks it (the task is
neither pushed nor dropped). -/
def encodeEnter (p : Nat) (t : EncTask) (s : EncQueueState) : EncQueueState :=
  if s.running = false then s
  else if s.queue.length < s.maxQueueSize then { s with queue := s.queue ++ [t] }
  else { s with blocked := s.blocked ++ [(p, t)] }

/-- The dequeue at the top of a worker iteration (jpeg_encoder.cpp:78-89):
pop the front task, then `cv_.notify_all()`. -/
def workerDequeue (s : EncQueueState) : Option EncTask × EncQueueState :=
  match s.queue with
  | [] => (none, s)
  | t :: rest => (some t, { s with queue := rest })

/-- A blocked producer re-checking its `cv_.wait` predicate after a
notification, under the re-acquired mutex (jpeg_encoder.cpp:48-52): if
shutdown it returns without pushing; if there is space it pushes its task
and leaves `encode`; otherwise it stays blocked. -/
def wakeProducer (i : Nat) (s : EncQueueState) : EncQueueState :=
  match s.blocked[i]? with
  | none => s
  | some pt =>
      if s.running = false then { s with blocked := s.blocked.eraseIdx i }
      else if s.queue.length < s.maxQueueSize then
        { s with queue := s.queue ++ [pt.2], blocked := s.blocked.eraseIdx i }
      else s

/-- Labels of the queue transition system. -/
inductive EncOp
  | enter (p : Nat) (t : EncTask)
  | dequeue
  | wake (i : Nat)

/-- Step function of the queue transition system. -/
def encStep : EncOp → EncQueueState → EncQueueState
  | .enter p t, s => encodeEnter p t s
  | .dequeue, s => (workerDequeue s).2
  | .wake i, s => wakeProducer i s

/-- Iterated steps of the queue transition system. -/
def encRun : List EncOp → EncQueueState → EncQueueState
  | [], s => s
  | op :: rest, s => encRun rest (encStep op s)


/-- Concrete TurboJPEG oracle used by witnesses. -/
def encEnvW : EncEnv := { tjBufSize := fun _ _ => 100, compress := fun _ => some 5 }

/-- Concrete libcamera oracle used by witnesses: one stream handle per role,
distinct buffer handles per stream, every device call succeeding. -/
def camEnvW : CamEnv :=
  { genConfig := fun roles =>
      some ((List.range roles.length).map fun i =>
        { streamId := i, width := 640, height := 480 }),
    validate := fun l => some l,
    applyOk := fun _ => true,
    allocOk := fun _ => true,
    buffersOf := fun sid => [10 * sid + 1, 10 * sid + 2],
    planesNonempty := fun _ => true,
    mmapOk := fun _ => true,
    createRequestOk := fun _ => true }

/-- Explicitly requested RAW stream used by witnesses. -/
def rawStreamW : StreamConfig := { type := StreamType.RAW, width := 2304, height := 1296 }

/-- Requested RGB stream used by witnesses. -/
def streamsW : List StreamConfig := [{ type := StreamType.RGB, width := 1280, height := 720 }]

/-- State after the witness `configure` run. -/
def smW1 : SMState :=
  ((configure camEnvW (some rawStreamW) streamsW initSMState).getD (true, initSMState)).2

/-- State after the witness `allocateBuffers` run. -/
def smW2 : SMState := ((allocateBuffers camEnvW smW1).getD (true, initSMState)).2

/-- Configured streams of the witness run. -/
def cfgsW : List ConfiguredStream := smW1.config.getD []

/-- A completed request of the witness run: the RAW buffer 1 and the RGB
buffer 11 attached. -/
def reqW : CompletedRequest := { buffers := [(0, 1), (1, 11)] }

theorem filterId_ctrlSet (id id' : ControlId) (v : CtrlValue) (req : RequestControls) :
    filterId id (ctrlSet req id' v) =
      filterId id req ++ (if id' = id then [v] else []) := by
  by_cases h : id' = id <;> simp [filterId, ctrlSet, List.filter_append, h]

theorem stepExposureMode_pending (a : ApplyState) :
    (stepExposureMode a).pending = a.pending := by
  unfold stepExposureMode
  cases a.pending.exposureMode <;> rfl

theorem stepExposureMode_filter (a : ApplyState) (id : ControlId)
    (h : id ≠ ControlId.aeExposureMode) :
    filterId id (stepExposureMode a).req = filterId id a.req := by
  unfold stepExposureMode
  cases a.pending.exposureMode
  · rfl
  · simp [filterId_ctrlSet, Ne.symm h]

theorem stepExposureMode_curExposureTime (a : ApplyState) :
    (stepExposureMode a).current.exposureTime = a.current.exposureTime := by
  unfold stepExposureMode
  cases a.pending.exposureMode <;> rfl

theorem stepExposureMode_curColourGains (a : ApplyState) :
    (stepExposureMode a).current.colourGains = a.current.colourGains := by
  unfold stepExposureMode
  cases a.pending.exposureMode <;> rfl

theorem stepExposureTime_pending (a : ApplyState) :
    (stepExposureTime a).pending = a.pending := by
  unfold stepExposureTime
  cases a.pending.exposureTime <;> rfl

theorem stepExposureTime_filter (a : ApplyState) (id : ControlId)
    (h : id ≠ ControlId.exposureTime) :
    filterId id (stepExposureTime a).req = filterId id a.req := by
  unfold stepExposureTime
  cases a.pending.exposureTime
  · rfl
  · simp [filterId_ctrlSet, Ne.symm h]

theorem stepExposureTime_curColourGains (a : ApplyState) :
    (stepExposureTime a).current.colourGains = a.current.colourGains := by
  unfold stepExposureTime
  cases a.pending.exposureTime <;> rfl

theorem stepAnalogueGain_pending (a : ApplyState) :
    (stepAnalogueGain a).pending = a.pending := by
  unfold stepAnalogueGain
  cases a.pending.analogueGain <;> rfl

theorem stepAnalogueGain_filter (a : ApplyState) (id : ControlId)
    (h : id ≠ ControlId.analogueGain) :
    filterId id (stepAnalogueGain a).req = filterId id a.req := by
  unfold stepAnalogueGain
  cases a.pending.analogueGain
  · rfl
  · simp [filterId_ctrlSet, Ne.symm h]

theorem stepAnalogueGain_curExposureTime (a : ApplyState) :
    (stepAnalogueGain a).current.exposureTime = a.current.exposureTime := by
  unfold stepAnalogueGain
  cases a.pending.analogueGain <;> rfl

theorem stepAnalogueGain_curColourGains (a : ApplyState) :
    (stepAnalogueGain a).current.colourGains = a.current.colourGains := by
  unfold stepAnalogueGain
  cases a.pending.analogueGain <;> rfl

theorem stepAfMode_pending (a : ApplyState) :
    (stepAfMode a).pending = a.pending := by
  unfold stepAfMode
  cases a.pending.afMode <;> rfl

theorem stepAfMode_filter (a : ApplyState) (id : ControlId)
    (h : id ≠ ControlId.afMode) :
    filterId id (stepAfMode a).req = filterId id a.req := by
  unfold stepAfMode
  cases a.pending.afMode
  · rfl
  · simp [filterId_ctrlSet, Ne.symm h]

theorem stepAfMode_curExposureTime (a : ApplyState) :
    (stepAfMode a).current.exposureTime = a.current.exposureTime := by
  unfold stepAfMode
  cases a.pending.afMode <;> rfl

theorem stepAfMode_curColourGains (a : ApplyState) :
    (stepAfMode a).current.colourGains = a.current.colourGains := by
  unfold stepAfMode
  cases a.pending.afMode <;> rfl

theorem stepLensPosition_pending (a : ApplyState) :
    (stepLensPosition a).pending = a.pending := by
  unfold stepLensPosition
  cases a.pending.lensPosition <;> rfl

theorem stepLensPosition_filter (a : ApplyState) (id : ControlId)
    (h : id ≠ ControlId.lensPosition) :
    filterId id (stepLensPosition a).req = filterId id a.req := by
  unfold stepLensPosition
  cases a.pending.lensPosition
  · rfl
  · simp [filterId_ctrlSet, Ne.symm h]

theorem stepLensPosition_curExposureTime (a : ApplyState) :
    (stepLensPosition a).current.exposureTime = a.current.exposureTime := by
  unfold stepLensPosition
  cases a.pending.lensPosition <;> rfl

theorem stepLensPosition_curColourGains (a : ApplyState) :
    (stepLensPosition a).current.colourGains = a.current.colourGains := by
  unfold stepLensPosition
  cases a.pending.lensPosition <;> rfl

theorem stepAwbMode_pending (a : ApplyState) :
    (stepAwbMode a).pending = a.pending := by
  unfold stepAwbMode
  cases a.pending.awbMode <;> rfl

theorem stepAwbMode_filter (a : ApplyState) (id : ControlId)
    (h : id ≠ ControlId.awbMode) :
    filterId id (stepAwbMode a).req = filterId id a.req := by
  unfold stepAwbMode
  cases a.pending.awbMode
  · rfl
  · simp [filterId_ctrlSet, Ne.symm h]

theorem stepAwbMode_curExposureTime (a : ApplyState) :
    (stepAwbMode a).current.exposureTime = a.current.exposureTime := by
  unfold stepAwbMode
  cases a.pending.awbMode <;> rfl

theorem stepAwbMode_curColourGains (a : ApplyState) :
    (stepAwbMode a).current.colourGains = a.current.colourGains := by
  unfold stepAwbMode
  cases a.pending.awbMode <;> rfl

theorem stepBrightness_pending (a : ApplyState) :
    (stepBrightness a).pending = a.pending := by
  unfold stepBrightness
  cases a.pending.brightness <;> rfl

theorem stepBrightness_filter (a : ApplyState) (id : ControlId)
    (h : id ≠ ControlId.brightness) :
    filterId id (stepBrightness a).req = filterId id a.req := by
  unfold stepBrightness
  cases a.pending.brightness
  · rfl
  · simp [filterId_ctrlSet, Ne.symm h]

theorem stepBrightness_curExposureTime (a : ApplyState) :
    (stepBrightness a).current.exposureTime = a.current.exposureTime := by
  unfold stepBrightness
  cases a.pending.brightness <;> rfl

theorem stepBrightness_curColourGains (a : ApplyState) :
    (stepBrightness a).current.colourGains = a.current.colourGains := by
  unfold stepBrightness
  cases a.pending.brightness <;> rfl

theorem stepContrast_pending (a : ApplyState) :
    (stepContrast a).pending = a.pending := by
  unfold stepContrast
  cases a.pending.contrast <;> rfl

theorem stepContrast_filter (a : ApplyState) (id : ControlId)
    (h : id ≠ ControlId.contrast) :
    filterId id (stepContrast a).req = filterId id a.req := by
  unfold stepContrast
  cases a.pending.contrast
  · rfl
  · simp [filterId_ctrlSet, Ne.symm h]

theorem stepContrast_curExposureTime (a : ApplyState) :
    (stepContrast a).current.exposureTime = a.current.exposureTime := by
  unfold stepContrast
  cases a.pending.contrast <;> rfl

theorem stepContrast_curColourGains (a : ApplyState) :
    (stepContrast a).current.colourGains = a.current.colourGains := by
  unfold stepContrast
  cases a.pending.contrast <;> rfl

theorem stepSaturation_pending (a : ApplyState) :
    (stepSaturation a).pending = a.pending := by
  unfold stepSaturation
  cases a.pending.saturation <;> rfl

theorem stepSaturation_filter (a : ApplyState) (id : ControlId)
    (h : id ≠ ControlId.saturation) :
    filterId id (stepSaturation a).req = filterId id a.req := by
  unfold stepSaturation
  cases a.pending.saturation
  · rfl
  · simp [filterId_ctrlSet, Ne.symm h]

theorem stepSaturation_curExposureTime (a : ApplyState) :
    (stepSaturation a).current.exposureTime = a.current.exposureTime := by
  unfold stepSaturation
  cases a.pending.saturation <;> rfl

theorem stepSaturation_curColourGains (a : ApplyState) :
    (stepSaturation a).current.colourGains = a.current.colourGains := by
  unfold stepSaturation
  cases a.pending.saturation <;> rfl

theorem stepSharpness_pending (a : ApplyState) :
    (stepSharpness a).pending = a.pending := by
  unfold stepSharpness
  cases a.pending.sharpness <;> rfl

theorem stepSharpness_filter (a : ApplyState) (id : ControlId)
    (h : id ≠ ControlId.sharpness) :
    filterId id (stepSharpness a).req = filterId id a.req := by
  unfold stepSharpness
  cases a.pending.sharpness
  · rfl
  · simp [filterId_ctrlSet, Ne.symm h]

theorem stepSharpness_curExposureTime (a : ApplyState) :
    (stepSharpness a).current.exposureTime = a.current.exposureTime := by
  unfold stepSharpness
  cases a.pending.sharpness <;> rfl

theorem stepSharpness_curColourGains (a : ApplyState) :
    (stepSharpness a).current.colourGains = a.current.colourGains := by
  unfold stepSharpness
  cases a.pending.sharpness <;> rfl

theorem stepTargetFps_pending (a : ApplyState) :
    (stepTargetFps a).pending = a.pending := by
  unfold stepTargetFps
  cases a.pending.targetFps <;> rfl

theorem stepTargetFps_filter (a : ApplyState) (id : ControlId)
    (h : id ≠ ControlId.frameDurationLimits) :
    filterId id (stepTargetFps a).req = filterId id a.req := by
  unfold stepTargetFps
  cases a.pending.targetFps
  · rfl
  · simp [filterId_ctrlSet, Ne.symm h]

theorem stepTargetFps_curExposureTime (a : ApplyState) :
    (stepTargetFps a).current.exposureTime = a.current.exposureTime := by
  unfold stepTargetFps
  cases a.pending.targetFps <;> rfl

theorem stepTargetFps_curColourGains (a : ApplyState) :
    (stepTargetFps a).current.colourGains = a.current.colourGains := by
  unfold stepTargetFps
  cases a.pending.targetFps <;> rfl

theorem stepAfTrigger_pending (a : ApplyState) :
    (stepAfTrigger a).pending = { a.pending with afTrigger := none } := by
  unfold stepAfTrigger
  cases h : a.pending.afTrigger
  · conv_rhs => rw [← h]
  · simp [h]

theorem stepAfTrigger_current (a : ApplyState) :
    (stepAfTrigger a).current = a.current := by
  unfold stepAfTrigger
  cases a.pending.afTrigger <;> rfl

theorem stepAfTrigger_filter (a : ApplyState) (id : ControlId)
    (h : id ≠ ControlId.afTrigger) :
    filterId id (stepAfTrigger a).req = filterId id a.req := by
  unfold stepAfTrigger
  cases a.pending.afTrigger
  · rfl
  · simp [filterId_ctrlSet, Ne.symm h]

theorem stepAfTrigger_filter_self (a : ApplyState) :
    filterId ControlId.afTrigger (stepAfTrigger a).req =
      filterId ControlId.afTrigger a.req ++ (a.pending.afTrigger.map CtrlValue.vInt).toList := by
  unfold stepAfTrigger
  cases a.pending.afTrigger <;> simp [filterId_ctrlSet]

theorem stepColourGains_pending (a : ApplyState) :
    (stepColourGains a).pending = a.pending := by
  unfold stepColourGains
  cases a.pending.colourGains
  · rfl
  · dsimp only; split <;> rfl

theorem stepColourGains_filter (a : ApplyState) (id : ControlId)
    (h : id ≠ ControlId.colourGains) :
    filterId id (stepColourGains a).req = filterId id a.req := by
  unfold stepColourGains
  cases a.pending.colourGains
  · rfl
  · dsimp only; split
    · simp [filterId_ctrlSet, Ne.symm h]
    · rfl

theorem stepColourGains_curExposureTime (a : ApplyState) :
    (stepColourGains a).current.exposureTime = a.current.exposureTime := by
  unfold stepColourGains
  cases a.pending.colourGains
  · rfl
  · dsimp only; split <;> rfl

theorem stepColourGains_short (a : ApplyState) (g : List Int)
    (hg : a.pending.colourGains = some g) (hlen : g.length < 2) :
    stepColourGains a = a := by
  unfold stepColourGains
  rw [hg]
  simp [Nat.not_le.mpr hlen]

theorem stepColourGains_full (a : ApplyState) (g : List Int)
    (hg : a.pending.colourGains = some g) (hlen : 2 ≤ g.length) :
    (stepColourGains a).req = ctrlSet a.req ControlId.colourGains (CtrlValue.vList (g.take 2)) ∧
      (stepColourGains a).current.colourGains = some g := by
  unfold stepColourGains
  rw [hg]
  simp [hlen]

theorem stepTargetFps_filter_self (a : ApplyState) :
    filterId ControlId.frameDurationLimits (stepTargetFps a).req =
      filterId ControlId.frameDurationLimits a.req ++
        (a.pending.targetFps.map
          (fun fps => CtrlValue.vList [Int.tdiv 1000000 fps, Int.tdiv 1000000 fps])).toList := by
  unfold stepTargetFps
  cases a.pending.targetFps <;> simp [filterId_ctrlSet]

theorem stepJpegQuality_req (a : ApplyState) :
    (stepJpegQuality a).req = a.req := by
  unfold stepJpegQuality
  cases a.pending.jpegQuality <;> rfl

theorem stepJpegQuality_pending (a : ApplyState) :
    (stepJpegQuality a).pending = a.pending := by
  unfold stepJpegQuality
  cases a.pending.jpegQuality <;> rfl

theorem stepJpegQuality_curExposureTime (a : ApplyState) :
    (stepJpegQuality a).current.exposureTime = a.current.exposureTime := by
  unfold stepJpegQuality
  cases a.pending.jpegQuality <;> rfl

theorem stepJpegQuality_curColourGains (a : ApplyState) :
    (stepJpegQuality a).current.colourGains = a.current.colourGains := by
  unfold stepJpegQuality
  cases a.pending.jpegQuality <;> rfl

theorem stepJpegQuality_cur (a : ApplyState) (q : Int)
    (hq : a.pending.jpegQuality = some q) :
    (stepJpegQuality a).current.jpegQuality = some q := by
  unfold stepJpegQuality
  rw [hq]

theorem stepExposureTime_none (a : ApplyState)
    (h : a.pending.exposureTime = none) : stepExposureTime a = a := by
  unfold stepExposureTime
  rw [h]

theorem applyControls_pending (c : Controls) (req : RequestControls)
    (s : ControlManagerState) :
    (applyControls c req s).1.pendingControls =
      { mergeControls s.pendingControls c with afTrigger := none } := by
  simp [applyControls, applySteps, stepJpegQuality_pending, stepTargetFps_pending,
    stepSharpness_pending, stepSaturation_pending, stepContrast_pending,
    stepBrightness_pending, stepColourGains_pending, stepAwbMode_pending,
    stepLensPosition_pending, stepAfTrigger_pending, stepAfMode_pending,
    stepAnalogueGain_pending, stepExposureTime_pending, stepExposureMode_pending]

theorem applyControls_filter_af (c : Controls) (req : RequestControls)
    (s : ControlManagerState) :
    filterId ControlId.afTrigger (applyControls c req s).2 =
      filterId ControlId.afTrigger req ++
        (((mergeControls s.pendingControls c).afTrigger).map CtrlValue.vInt).toList := by
  simp [applyControls, applySteps, stepJpegQuality_req, stepTargetFps_filter,
    stepSharpness_filter, stepSaturation_filter, stepContrast_filter,
    stepBrightness_filter, stepColourGains_filter, stepAwbMode_filter,
    stepLensPosition_filter, stepAfTrigger_filter_self, stepAfMode_filter,
    stepAnalogueGain_filter, stepExposureTime_filter, stepExposureMode_filter,
    stepAfMode_pending, stepAnalogueGain_pending, stepExposureTime_pending,
    stepExposureMode_pending]

theorem applyControls_filter_jpeg (c : Controls) (req : RequestControls)
    (s : ControlManagerState) :
    filterId ControlId.jpegQuality (applyControls c req s).2 =
      filterId ControlId.jpegQuality req := by
  simp [applyControls, applySteps, stepJpegQuality_req, stepTargetFps_filter,
    stepSharpness_filter, stepSaturation_filter, stepContrast_filter,
    stepBrightness_filter, stepColourGains_filter, stepAwbMode_filter,
    stepLensPosition_filter, stepAfTrigger_filter, stepAfMode_filter,
    stepAnalogueGain_filter, stepExposureTime_filter, stepExposureMode_filter]

theorem applyControls_cur_jpeg (c : Controls) (req : RequestControls)
    (s : ControlManagerState) (q : Int)
    (hq : (mergeControls s.pendingControls c).jpegQuality = some q) :
    (applyControls c req s).1.currentControls.jpegQuality = some q := by
  unfold applyControls applySteps
  apply stepJpegQuality_cur
  simp [stepTargetFps_pending, stepSharpness_pending, stepSaturation_pending,
    stepContrast_pending, stepBrightness_pending, stepColourGains_pending,
    stepAwbMode_pending, stepLensPosition_pending, stepAfTrigger_pending,
    stepAfMode_pending, stepAnalogueGain_pending, stepExposureTime_pending,
    stepExposureMode_pending, hq]

theorem applyControls_filter_fps (c : Controls) (req : RequestControls)
    (s : ControlManagerState) :
    filterId ControlId.frameDurationLimits (applyControls c req s).2 =
      filterId ControlId.frameDurationLimits req ++
        (((mergeControls s.pendingControls c).targetFps).map
          (fun fps => CtrlValue.vList [Int.tdiv 1000000 fps, Int.tdiv 1000000 fps])).toList := by
  simp [applyControls, applySteps, stepJpegQuality_req, stepTargetFps_filter_self,
    stepSharpness_filter, stepSaturation_filter, stepContrast_filter,
    stepBrightness_filter, stepColourGains_filter, stepAwbMode_filter,
    stepLensPosition_filter, stepAfTrigger_filter, stepAfMode_filter,
    stepAnalogueGain_filter, stepExposureTime_filter, stepExposureMode_filter,
    stepSharpness_pending, stepSaturation_pending, stepContrast_pending,
    stepBrightness_pending, stepColourGains_pending, stepAwbMode_pending,
    stepLensPosition_pending, stepAfTrigger_pending, stepAfMode_pending,
    stepAnalogueGain_pending, stepExposureTime_pending, stepExposureMode_pending]

theorem applyControls_cgains_short (c : Controls) (req : RequestControls)
    (s : ControlManagerState) (g : List Int)
    (hg : (mergeControls s.pendingControls c).colourGains = some g)
    (hlen : g.length < 2) :
    filterId ControlId.colourGains (applyControls c req s).2 =
        filterId ControlId.colourGains req ∧
      (applyControls c req s).1.currentControls.colourGains =
        s.currentControls.colourGains := by
  unfold applyControls applySteps
  have hpend : (stepAwbMode (stepLensPosition (stepAfTrigger (stepAfMode
      (stepAnalogueGain (stepExposureTime (stepExposureMode
        { req := req, pending := mergeControls s.pendingControls c,
          current := s.currentControls }))))))).pending.colourGains = some g := by
    simp [stepAwbMode_pending, stepLensPosition_pending, stepAfTrigger_pending,
      stepAfMode_pending, stepAnalogueGain_pending, stepExposureTime_pending,
      stepExposureMode_pending, hg]
  rw [stepColourGains_short _ g hpend hlen]
  constructor
  · simp [stepJpegQuality_req, stepTargetFps_filter, stepSharpness_filter,
      stepSaturation_filter, stepContrast_filter, stepBrightness_filter,
      stepAwbMode_filter, stepLensPosition_filter, stepAfTrigger_filter,
      stepAfMode_filter, stepAnalogueGain_filter, stepExposureTime_filter,
      stepExposureMode_filter]
  · simp [stepJpegQuality_curColourGains, stepTargetFps_curColourGains,
      stepSharpness_curColourGains, stepSaturation_curColourGains,
      stepContrast_curColourGains, stepBrightness_curColourGains,
      stepAwbMode_curColourGains, stepLensPosition_curColourGains,
      stepAfTrigger_current, stepAfMode_curColourGains,
      stepAnalogueGain_curColourGains, stepExposureTime_curColourGains,
      stepExposureMode_curColourGains]

theorem applyControls_cgains_full (c : Controls) (req : RequestControls)
    (s : ControlManagerState) (g : List Int)
    (hg : (mergeControls s.pendingControls c).colourGains = some g)
    (hlen : 2 ≤ g.length) :
    filterId ControlId.colourGains (applyControls c req s).2 =
        filterId ControlId.colourGains req ++ [CtrlValue.vList (g.take 2)] ∧
      (applyControls c req s).1.currentControls.colourGains = some g := by
  unfold applyControls applySteps
  have hpend : (stepAwbMode (stepLensPosition (stepAfTrigger (stepAfMode
      (stepAnalogueGain (stepExposureTime (stepExposureMode
        { req := req, pending := mergeControls s.pendingControls c,
          current := s.currentControls }))))))).pending.colourGains = some g := by
    simp [stepAwbMode_pending, stepLensPosition_pending, stepAfTrigger_pending,
      stepAfMode_pending, stepAnalogueGain_pending, stepExposureTime_pending,
      stepExposureMode_pending, hg]
  obtain ⟨h1, h2⟩ := stepColourGains_full _ g hpend hlen
  constructor
  · simp [stepJpegQuality_req, stepTargetFps_filter, stepSharpness_filter,
      stepSaturation_filter, stepContrast_filter, stepBrightness_filter,
      h1, filterId_ctrlSet, stepAwbMode_filter, stepLensPosition_filter,
      stepAfTrigger_filter, stepAfMode_filter, stepAnalogueGain_filter,
      stepExposureTime_filter, stepExposureMode_filter]
  · simp [stepJpegQuality_curColourGains, stepTargetFps_curColourGains,
      stepSharpness_curColourGains, stepSaturation_curColourGains,
      stepContrast_curColourGains, stepBrightness_curColourGains, h2]

theorem applyControls_expTime_none (c : Controls) (req : RequestControls)
    (s : ControlManagerState)
    (h : (mergeControls s.pendingControls c).exposureTime = none) :
    filterId ControlId.exposureTime (applyControls c req s).2 =
        filterId ControlId.exposureTime req ∧
      (applyControls c req s).1.currentControls.exposureTime =
        s.currentControls.exposureTime := by
  unfold applyControls applySteps
  have hpend : (stepExposureMode
      { req := req, pending := mergeControls s.pendingControls c,
        current := s.currentControls }).pending.exposureTime = none := by
    simp [stepExposureMode_pending, h]
  rw [stepExposureTime_none _ hpend]
  constructor
  · simp [stepJpegQuality_req, stepTargetFps_filter, stepSharpness_filter,
      stepSaturation_filter, stepContrast_filter, stepBrightness_filter,
      stepColourGains_filter, stepAwbMode_filter, stepLensPosition_filter,
      stepAfTrigger_filter, stepAfMode_filter, stepAnalogueGain_filter,
      stepExposureMode_filter]
  · simp [stepJpegQuality_curExposureTime, stepTargetFps_curExposureTime,
      stepSharpness_curExposureTime, stepSaturation_curExposureTime,
      stepContrast_curExposureTime, stepBrightness_curExposureTime,
      stepColourGains_curExposureTime, stepAwbMode_curExposureTime,
      stepLensPosition_curExposureTime, stepAfTrigger_current,
      stepAfMode_curExposureTime, stepAnalogueGain_curExposureTime,
      stepExposureMode_curExposureTime]

theorem runApplySeq_no_af (calls : List Controls)
    (h : ∀ c' ∈ calls, c'.afTrigger = none)
    (sr : ControlManagerState × RequestControls)
    (hp : sr.1.pendingControls.afTrigger = none) :
    filterId ControlId.afTrigger (runApplySeq calls sr).2 =
        filterId ControlId.afTrigger sr.2 ∧
      (runApplySeq calls sr).1.pendingControls.afTrigger = none := by
  induction calls generalizing sr with
  | nil => exact ⟨rfl, hp⟩
  | cons c cs ih =>
      obtain ⟨s, req⟩ := sr
      have hmerge : (mergeControls s.pendingControls c).afTrigger = none := by
        simp only [mergeControls]
        simp only [assignIfSet, h c (List.mem_cons_self c cs)]
        exact hp
      have h1 := applyControls_filter_af c req s
      have h2 := applyControls_pending c req s
      have hstep : filterId ControlId.afTrigger (applyControls c req s).2 =
          filterId ControlId.afTrigger req := by
        rw [h1, hmerge]; simp
      have hpend : (applyControls c req s).1.pendingControls.afTrigger = none := by
        rw [h2]
      have := ih (fun c' hc' => h c' (List.mem_cons_of_mem c hc'))
        (applyControls c req s) hpend
      exact ⟨by rw [show runApplySeq (c :: cs) (s, req) =
          runApplySeq cs (applyControls c req s) from rfl, this.1, hstep],
        by rw [show runApplySeq (c :: cs) (s, req) =
          runApplySeq cs (applyControls c req s) from rfl]; exact this.2⟩

/-- C2: an af-trigger value set once by the caller (so that the merged
pending set holds `some v`) is written to the request exactly once by that
`applyControls` call, is cleared from pending in the same call regardless of
`v`, and no later `applyControls` call writes it again as long as the caller
does not set it again. -/
theorem C2_afTrigger_one_shot (c : Controls) (s : ControlManagerState)
    (req : RequestControls) (calls : List Controls) (v : Int)
    (hset : assignIfSet s.pendingControls.afTrigger c.afTrigger = some v)
    (hcalls : ∀ c' ∈ calls, c'.afTrigger = none) :
    filterId ControlId.afTrigger (applyControls c req s).2 =
        filterId ControlId.afTrigger req ++ [CtrlValue.vInt v] ∧
      (applyControls c req s).1.pendingControls.afTrigger = none ∧
      filterId ControlId.afTrigger (runApplySeq calls (applyControls c req s)).2 =
        filterId ControlId.afTrigger (applyControls c req s).2 := by
  have hmerge : (mergeControls s.pendingControls c).afTrigger = some v := by
    simp [mergeControls, hset]
  have h1 := applyControls_filter_af c req s
  have h2 := applyControls_pending c req s
  have hpend : (applyControls c req s).1.pendingControls.afTrigger = none := by
    rw [h2]
  refine ⟨?_, hpend, ?_⟩
  · rw [h1, hmerge]; rfl
  · exact (runApplySeq_no_af calls hcalls (applyControls c req s) hpend).1

/-- Witness for C2: af-trigger 0 set through a call, followed by two calls
that do not set it. -/
theorem C2_afTrigger_one_shot_witness :
    (assignIfSet ({} : ControlManagerState).pendingControls.afTrigger
        ({ afTrigger := some 0 } : Controls).afTrigger = some 0) ∧
      (∀ c' ∈ [({ exposureTime := some 5 } : Controls), ({} : Controls)],
        c'.afTrigger = none) ∧
      (filterId ControlId.afTrigger
            (applyControls { afTrigger := some 0 } [] {}).2 =
          filterId ControlId.afTrigger [] ++ [CtrlValue.vInt 0] ∧
        (applyControls { afTrigger := some 0 } [] {}).1.pendingControls.afTrigger =
          none ∧
        filterId ControlId.afTrigger
            (runApplySeq [{ exposureTime := some 5 }, {}]
              (applyControls { afTrigger := some 0 } [] {})).2 =
          filterId ControlId.afTrigger
            (applyControls { afTrigger := some 0 } [] {}).2) :=
  ⟨by decide, by decide,
    C2_afTrigger_one_shot { afTrigger := some 0 } {} [] [{ exposureTime := some 5 }, {}] 0
      (by decide) (by decide)⟩

/-- C5: a positive target fps pending in `applyControls` is written to the
request as a frame-duration pair with both entries equal to the integer
quotient 1000000 / fps; fps = 30 gives exactly 33333 on both. -/
theorem C5_targetFps_duration (c : Controls) (req : RequestControls)
    (s : ControlManagerState) (fps : Int)
    (hset : assignIfSet s.pendingControls.targetFps c.targetFps = some fps)
    (hpos : 0 < fps) :
    filterId ControlId.frameDurationLimits (applyControls c req s).2 =
        filterId ControlId.frameDurationLimits req ++
          [CtrlValue.vList [Int.tdiv 1000000 fps, Int.tdiv 1000000 fps]] ∧
      (fps = 30 →
        filterId ControlId.frameDurationLimits (applyControls c req s).2 =
          filterId ControlId.frameDurationLimits req ++
            [CtrlValue.vList [33333, 33333]]) := by
  have hmerge : (mergeControls s.pendingControls c).targetFps = some fps := by
    simp [mergeControls, hset]
  have h := applyControls_filter_fps c req s
  constructor
  · rw [h, hmerge]; rfl
  · rintro rfl
    rw [h, hmerge]
    rfl

/-- Witness for C5 at fps = 30. -/
theorem C5_targetFps_duration_witness :
    (assignIfSet ({} : ControlManagerState).pendingControls.targetFps
        ({ targetFps := some 30 } : Controls).targetFps = some 30) ∧
      ((0 : Int) < 30) ∧
      (filterId ControlId.frameDurationLimits
            (applyControls { targetFps := some 30 } [] {}).2 =
          filterId ControlId.frameDurationLimits [] ++
            [CtrlValue.vList [Int.tdiv 1000000 30, Int.tdiv 1000000 30]] ∧
        ((30 : Int) = 30 →
          filterId ControlId.frameDurationLimits
              (applyControls { targetFps := some 30 } [] {}).2 =
            filterId ControlId.frameDurationLimits [] ++
              [CtrlValue.vList [33333, 33333]])) :=
  ⟨by decide, by decide,
    C5_targetFps_duration { targetFps := some 30 } [] {} 30 (by decide) (by decide)⟩

/-- C6: a pending colour-gains value of fewer than 2 elements is neither
written to the request nor promoted to current; a 2-element value is written
verbatim and promoted to current. -/
theorem C6_colourGains (c : Controls) (req : RequestControls)
    (s : ControlManagerState) (g : List Int)
    (hset : assignIfSet s.pendingControls.colourGains c.colourGains = some g) :
    (g.length < 2 →
      filterId ControlId.colourGains (applyControls c req s).2 =
          filterId ControlId.colourGains req ∧
        (applyControls c req s).1.currentControls.colourGains =
          s.currentControls.colourGains) ∧
    (g.length = 2 →
      filterId ControlId.colourGains (applyControls c req s).2 =
          filterId ControlId.colourGains req ++ [CtrlValue.vList g] ∧
        (applyControls c req s).1.currentControls.colourGains = some g) := by
  have hg : (mergeControls s.pendingControls c).colourGains = some g := by
    simp [mergeControls, hset]
  constructor
  · intro hlen
    exact applyControls_cgains_short c req s g hg hlen
  · intro hlen
    have h := applyControls_cgains_full c req s g hg (by omega)
    rwa [List.take_of_length_le (by omega)] at h

/-- Witness for C6 with the 2-element array [3, 4]. -/
theorem C6_colourGains_witness :
    (assignIfSet ({} : ControlManagerState).pendingControls.colourGains
        ({ colourGains := some [3, 4] } : Controls).colourGains = some [3, 4]) ∧
      (([3, 4] : List Int).length = 2 →
        filterId ControlId.colourGains
            (applyControls { colourGains := some [3, 4] } [] {}).2 =
          filterId ControlId.colourGains [] ++ [CtrlValue.vList [3, 4]] ∧
        (applyControls { colourGains := some [3, 4] } [] {}).1.currentControls.colourGains =
          some [3, 4]) :=
  ⟨by decide,
    (C6_colourGains { colourGains := some [3, 4] } [] {} [3, 4] (by decide)).2⟩


theorem setControls_cm (c : Controls) (impl : ImplState) :
    (Impl.setControls c impl).1.cm = impl.cm := by
  unfold Impl.setControls
  cases c.jpegQuality <;> rfl

theorem setControls_pending (c : Controls) (impl : ImplState) :
    (Impl.setControls c impl).1.pendingControls = some c := by
  unfold Impl.setControls
  cases c.jpegQuality <;> rfl

theorem setControls_jpegQuality (c : Controls) (impl : ImplState) (q : Int)
    (hq : c.jpegQuality = some q) :
    (Impl.setControls c impl).1.jpegQuality = q := by
  unfold Impl.setControls
  rw [hq]

/-- C1: contrary to the specification, `allocateBuffers()` on a
`StreamManager` whose `configure()` has never populated `config_` does not
fail cleanly: the range-for `for (auto &streamCfg : *config_)` dereferences
the null `config_` unique pointer, which is undefined behaviour (a crash),
not a `false` return. -/
theorem C1_allocateBuffers_null_config_crashes (env : CamEnv) :
    allocateBuffers env initSMState = none := rfl

theorem start_failed_running (env : CamEnv) (dOk : Bool) (impl : ImplState)
    (sm : SMState) (impl' : ImplState) (sm' : SMState)
    (h : Impl.start env dOk impl sm = some (impl', sm', false)) :
    impl'.running = impl.running := by
  unfold Impl.start at h
  cases halloc : allocateBuffers env sm with
  | none => rw [halloc] at h; cases h
  | some res =>
      obtain ⟨ok, sm1⟩ := res
      rw [halloc] at h
      cases ok with
      | false =>
          simp only [Option.some.injEq, Prod.mk.injEq] at h
          rw [← h.1]
      | true =>
          dsimp only at h
          cases hd : dOk with
          | false =>
              rw [hd] at h
              simp only [Option.some.injEq, Prod.mk.injEq] at h
              rw [← h.1]
          | true =>
              rw [hd] at h
              simp at h

/-- C8: `stop()` is a no-op when not running, calling it twice leaves the
same state as calling it once, and after a failed `start()` from a stopped
state it is again a no-op (hence safe). -/
theorem C8_stop_idempotent (impl : ImplState) (sm : SMState) :
    (impl.running = false → Impl.stop impl sm = (impl, sm)) ∧
      Impl.stop (Impl.stop impl sm).1 (Impl.stop impl sm).2 = Impl.stop impl sm ∧
      (∀ env dOk impl' sm', impl.running = false →
        Impl.start env dOk impl sm = some (impl', sm', false) →
        Impl.stop impl' sm' = (impl', sm')) := by
  refine ⟨?_, ?_, ?_⟩
  · intro h
    simp [Impl.stop, h]
  · by_cases h : impl.running = false
    · simp [Impl.stop, h]
    · simp [Impl.stop, h]
  · intro env dOk impl' sm' hrun hstart
    have h := start_failed_running env dOk impl sm impl' sm' hstart
    rw [hrun] at h
    simp [Impl.stop, h]

/-- Witness for C8: a stopped orchestrator, plus a start that fails at
request creation. -/
theorem C8_stop_idempotent_witness :
    (({} : ImplState).running = false ∧
      Impl.stop ({} : ImplState) {} = ({}, {})) ∧
      Impl.stop (Impl.stop ({} : ImplState) {}).1 (Impl.stop ({} : ImplState) {}).2 =
        Impl.stop ({} : ImplState) {} :=
  ⟨⟨rfl, (C8_stop_idempotent {} {}).1 rfl⟩, (C8_stop_idempotent {} {}).2.1⟩

/-- C3: a `setControls` call whose set contains jpegQuality immediately
updates the encoder cache; after one completed-request cycle the
current-controls snapshot reports the new value, while the request's device
control list never receives a jpeg-quality write. -/
theorem C3_jpegQuality_cached_never_written (impl : ImplState) (sm : SMState)
    (c : Controls) (q : Int) (req : CompletedRequest)
    (hq : c.jpegQuality = some q) (hcancel : req.cancelled = false) :
    (Impl.setControls c impl).1.jpegQuality = q ∧
      (Impl.getControls
          (requestComplete (Impl.setControls c impl).1 sm req).impl).jpegQuality =
        some q ∧
      filterId ControlId.jpegQuality
          (requestComplete (Impl.setControls c impl).1 sm req).trace =
        filterId ControlId.jpegQuality req.reqControls := by
  refine ⟨setControls_jpegQuality c impl q hq, ?_, ?_⟩
  · unfold requestComplete
    rw [hcancel]
    rw [setControls_pending]
    dsimp only [Impl.getControls, getCurrentControls]
    rw [setControls_cm]
    exact applyControls_cur_jpeg c req.reqControls impl.cm q
      (by simp [mergeControls, assignIfSet, hq])
  · unfold requestComplete
    rw [hcancel]
    rw [setControls_pending]
    dsimp only
    rw [setControls_cm]
    exact applyControls_filter_jpeg c req.reqControls impl.cm

/-- Witness for C3: jpegQuality 90 through one completed request. -/
theorem C3_jpegQuality_cached_never_written_witness :
    (({ jpegQuality := some 90 } : Controls).jpegQuality = some 90) ∧
      (({} : CompletedRequest).cancelled = false) ∧
      ((Impl.setControls { jpegQuality := some 90 } {}).1.jpegQuality = 90 ∧
        (Impl.getControls
            (requestComplete (Impl.setControls { jpegQuality := some 90 } {}).1 {}
              {}).impl).jpegQuality = some 90 ∧
        filterId ControlId.jpegQuality
            (requestComplete (Impl.setControls { jpegQuality := some 90 } {}).1 {}
              {}).trace =
          filterId ControlId.jpegQuality ({} : CompletedRequest).reqControls) :=
  ⟨rfl, rfl,
    C3_jpegQuality_cached_never_written {} {} { jpegQuality := some 90 } 90 {} rfl rfl⟩

/-- C10: a second `setControls` before any completion wholly replaces the
orchestrator pending set, so a field present only in the first call (here
exposureTime) is never written to a request nor promoted to current by the
following completion cycle. -/
theorem C10_setControls_replaces_pending (impl : ImplState) (sm : SMState)
    (c1 c2 : Controls) (req : CompletedRequest)
    (h2 : c2.exposureTime = none)
    (hcm : impl.cm.pendingControls.exposureTime = none)
    (hcancel : req.cancelled = false) :
    (Impl.setControls c2 (Impl.setControls c1 impl).1).1.pendingControls = some c2 ∧
      filterId ControlId.exposureTime
          (requestComplete (Impl.setControls c2 (Impl.setControls c1 impl).1).1 sm
            req).trace =
        filterId ControlId.exposureTime req.reqControls ∧
      (requestComplete (Impl.setControls c2 (Impl.setControls c1 impl).1).1 sm
          req).impl.cm.currentControls.exposureTime =
        impl.cm.currentControls.exposureTime := by
  have hmerge : (mergeControls (Impl.setControls c2 (Impl.setControls c1 impl).1).1.cm.pendingControls
      c2).exposureTime = none := by
    rw [setControls_cm, setControls_cm]
    simp [mergeControls, assignIfSet, h2, hcm]
  refine ⟨setControls_pending c2 (Impl.setControls c1 impl).1, ?_, ?_⟩
  · unfold requestComplete
    rw [hcancel]
    rw [setControls_pending]
    dsimp only
    have h := applyControls_expTime_none c2 req.reqControls
      (Impl.setControls c2 (Impl.setControls c1 impl).1).1.cm
      (by rw [setControls_cm, setControls_cm] at hmerge ⊢; exact hmerge)
    exact h.1
  · unfold requestComplete
    rw [hcancel]
    rw [setControls_pending]
    dsimp only
    have h := applyControls_expTime_none c2 req.reqControls
      (Impl.setControls c2 (Impl.setControls c1 impl).1).1.cm
      (by rw [setControls_cm, setControls_cm] at hmerge ⊢; exact hmerge)
    rw [setControls_cm, setControls_cm] at h ⊢
    exact h.2

/-- Witness for C10: exposureTime only in the first of two calls. -/
theorem C10_setControls_replaces_pending_witness :
    (({ afMode := some 1 } : Controls).exposureTime = none) ∧
      (({} : ImplState).cm.pendingControls.exposureTime = none) ∧
      (({} : CompletedRequest).cancelled = false) ∧
      ((Impl.setControls { afMode := some 1 }
          (Impl.setControls { exposureTime := some 777 } {}).1).1.pendingControls =
        some { afMode := some 1 } ∧
        filterId ControlId.exposureTime
            (requestComplete
              (Impl.setControls { afMode := some 1 }
                (Impl.setControls { exposureTime := some 777 } {}).1).1 {} {}).trace =
          filterId ControlId.exposureTime ({} : CompletedRequest).reqControls ∧
        (requestComplete
            (Impl.setControls { afMode := some 1 }
              (Impl.setControls { exposureTime := some 777 } {}).1).1 {}
            {}).impl.cm.currentControls.exposureTime =
          ({} : ImplState).cm.currentControls.exposureTime) :=
  ⟨rfl, rfl, rfl,
    C10_setControls_replaces_pending {} {} { exposureTime := some 777 }
      { afMode := some 1 } {} rfl rfl rfl⟩


/-- C7: an encode task copies exactly width*height*3/2 bytes of the source
planar frame into its own buffer, and on a successful compression the worker
delivers exactly one callback invocation of type JPEG whose data is sized
exactly to the compressed length, tagged with the task's original timestamp
and sequence. -/
theorem C7_encode_task_and_callback (mem : Nat → Nat) (width height : Nat)
    (quality : Int) (ts seq : Nat) (env : EncEnv) (buffer : List Nat)
    (jpegSize : Nat)
    (hc : env.compress (encodeTaskOf mem width height quality ts seq) =
      some jpegSize)
    (hsz : jpegSize ≤ env.tjBufSize width height) :
    (encodeTaskOf mem width height quality ts seq).data.length =
        width * height * 3 / 2 ∧
      (workerProcess env buffer (encodeTaskOf mem width height quality ts seq)).1 =
        [{ type := StreamType.JPEG, dataLen := jpegSize,
           timestamp := ts, sequence := seq }] := by
  constructor
  · simp [encodeTaskOf]
  · unfold workerProcess
    rw [hc]
    dsimp only [encodeTaskOf]
    split
    · next hlt =>
        simp only [EncodeEvent.mk.injEq, List.cons.injEq, and_true, true_and,
          List.length_take, List.length_append, List.length_replicate]
        rw [Nat.min_def]
        split <;> omega
    · next hge =>
        simp only [EncodeEvent.mk.injEq, List.cons.injEq, and_true, true_and,
          List.length_take]
        rw [Nat.min_def]
        split <;> omega

/-- Witness for C7: a 4x2 frame compressed to 5 bytes. -/
theorem C7_encode_task_and_callback_witness :
    (encEnvW.compress (encodeTaskOf (fun i => i) 4 2 80 11 3) = some 5) ∧
      (5 ≤ encEnvW.tjBufSize 4 2) ∧
      ((encodeTaskOf (fun i => i) 4 2 80 11 3).data.length = 4 * 2 * 3 / 2 ∧
        (workerProcess encEnvW [] (encodeTaskOf (fun i => i) 4 2 80 11 3)).1 =
          [{ type := StreamType.JPEG, dataLen := 5, timestamp := 11, sequence := 3 }]) :=
  ⟨rfl, by decide,
    C7_encode_task_and_callback (fun i => i) 4 2 80 11 3 encEnvW [] 5 rfl (by decide)⟩

theorem encStep_maxQueueSize (op : EncOp) (s : EncQueueState) :
    (encStep op s).maxQueueSize = s.maxQueueSize := by
  cases op with
  | enter p t =>
      dsimp only [encStep, encodeEnter]
      split
      · rfl
      · split <;> rfl
  | dequeue =>
      dsimp only [encStep, workerDequeue]
      cases s.queue <;> rfl
  | wake i =>
      dsimp only [encStep, wakeProducer]
      cases s.blocked[i]? with
      | none => rfl
      | some pt =>
          dsimp only
          split
          · rfl
          · split <;> rfl

theorem encStep_bound (op : EncOp) (s : EncQueueState)
    (h : s.queue.length ≤ s.maxQueueSize) :
    (encStep op s).queue.length ≤ s.maxQueueSize := by
  cases op with
  | enter p t =>
      dsimp only [encStep, encodeEnter]
      split
      · exact h
      · split
        · next hlt => simp only [List.length_append, List.length_cons,
            List.length_nil]; omega
        · exact h
  | dequeue =>
      dsimp only [encStep, workerDequeue]
      cases hq : s.queue with
      | nil => exact h
      | cons t rest =>
          dsimp only
          rw [hq] at h
          simp only [List.length_cons] at h
          omega
  | wake i =>
      dsimp only [encStep, wakeProducer]
      cases s.blocked[i]? with
      | none => exact h
      | some pt =>
          dsimp only
          split
          · exact h
          · split
            · next hlt => simp only [List.length_append, List.length_cons,
                List.length_nil]; omega
            · exact h

theorem encRun_bound (ops : List EncOp) (s : EncQueueState)
    (h : s.queue.length ≤ s.maxQueueSize) :
    (encRun ops s).queue.length ≤ (encRun ops s).maxQueueSize := by
  induction ops generalizing s with
  | nil => exact h
  | cons op rest ih =>
      have h1 := encStep_bound op s h
      rw [← encStep_maxQueueSize op s] at h1
      exact ih (encStep op s) h1

/-- C9: the queue never exceeds maxQueueSize under any sequence of
operations; a producer entering `encode` on a full queue blocks (its task is
kept in the blocked set, the queue unchanged) instead of dropping the frame;
and after the worker dequeues one task, exactly one blocked producer can
complete its push: the queue is full again and every further wake-up is a
no-op until the next dequeue. -/
theorem C9_queue_backpressure (s : EncQueueState) (p : Nat) (t : EncTask)
    (i : Nat) (hrun : s.running = true)
    (hfull : s.queue.length = s.maxQueueSize) (hpos : 0 < s.maxQueueSize)
    (hi : i < s.blocked.length) :
    (∀ ops s0, s0.queue.length ≤ s0.maxQueueSize →
      (encRun ops s0).queue.length ≤ (encRun ops s0).maxQueueSize) ∧
      encodeEnter p t s = { s with blocked := s.blocked ++ [(p, t)] } ∧
      ((workerDequeue s).1.isSome ∧
        (wakeProducer i (workerDequeue s).2).queue.length = s.maxQueueSize ∧
        (wakeProducer i (workerDequeue s).2).blocked.length + 1 = s.blocked.length ∧
        (∀ j, wakeProducer j (wakeProducer i (workerDequeue s).2) =
          wakeProducer i (workerDequeue s).2)) := by
  obtain ⟨qu, bl, maxQ, run⟩ := s
  dsimp only at hrun hfull hpos hi ⊢
  subst hrun
  obtain ⟨t0, rest, rfl⟩ : ∃ t0 rest, qu = t0 :: rest := by
    cases hq : qu with
    | nil => rw [hq] at hfull; simp at hfull; omega
    | cons a b => exact ⟨a, b, rfl⟩
  simp only [List.length_cons] at hfull
  have hbl : bl[i]? = some bl[i] := List.getElem?_eq_getElem hi
  have hdq : (workerDequeue ⟨t0 :: rest, bl, maxQ, true⟩).2 =
      ⟨rest, bl, maxQ, true⟩ := rfl
  have hwake : wakeProducer i ⟨rest, bl, maxQ, true⟩ =
      ⟨rest ++ [bl[i].2], bl.eraseIdx i, maxQ, true⟩ := by
    unfold wakeProducer
    rw [hbl]
    dsimp only
    rw [if_neg (by simp), if_pos (by omega)]
  refine ⟨fun ops s0 h0 => encRun_bound ops s0 h0, ?_, ?_, ?_, ?_, ?_⟩
  · unfold encodeEnter
    rw [if_neg (by simp), if_neg (by dsimp only [List.length_cons]; omega)]
  · rfl
  · rw [hdq, hwake]
    dsimp only
    simp only [List.length_append, List.length_cons, List.length_nil]
    omega
  · rw [hdq, hwake]
    dsimp only
    exact List.length_eraseIdx_add_one hi
  · intro j
    rw [hdq, hwake]
    unfold wakeProducer
    cases hj : (bl.eraseIdx i)[j]? with
    | none => rfl
    | some pt2 =>
        dsimp only
        rw [if_neg (by simp), if_neg (by
          simp only [List.length_append, List.length_cons, List.length_nil]
          omega)]

/-- Witness for C9: bound 2, full queue, one blocked producer. -/
theorem C9_queue_backpressure_witness :
    ((⟨[{}, {}], [(7, {})], 2, true⟩ : EncQueueState).running = true) ∧
      ((⟨[{}, {}], [(7, {})], 2, true⟩ : EncQueueState).queue.length =
        (⟨[{}, {}], [(7, {})], 2, true⟩ : EncQueueState).maxQueueSize) ∧
      (0 < (⟨[{}, {}], [(7, {})], 2, true⟩ : EncQueueState).maxQueueSize) ∧
      (0 < (⟨[{}, {}], [(7, {})], 2, true⟩ : EncQueueState).blocked.length) ∧
      (encodeEnter 9 {} (⟨[{}, {}], [(7, {})], 2, true⟩ : EncQueueState) =
        { (⟨[{}, {}], [(7, {})], 2, true⟩ : EncQueueState) with
            blocked := [(7, {}), (9, {})] }) :=
  ⟨rfl, rfl, by decide, by decide,
    (C9_queue_backpressure (⟨[{}, {}], [(7, {})], 2, true⟩ : EncQueueState)
      9 {} 0 rfl rfl (by decide) (by decide)).2.1⟩


theorem mapBuffer_raw (env : CamEnv) (mapped : List (Nat × Nat)) (buffer : Nat)
    (width height : Nat) :
    mapBuffer env mapped buffer StreamType.RAW width height = (true, mapped) := rfl

theorem mapBuffer_lookup_ne (env : CamEnv) (mapped : List (Nat × Nat))
    (buffer : Nat) (ty : StreamType) (width height : Nat) (b : Nat)
    (hb : b ≠ buffer) :
    ((mapBuffer env mapped buffer ty width height).2).lookup b =
      mapped.lookup b := by
  cases ty with
  | RAW => rfl
  | JPEG =>
      unfold mapBuffer
      rw [if_neg (by simp)]
      split
      · rfl
      · dsimp only
        split
        · have hbeq : (b == buffer) = false := by simp [hb]
          simp [List.lookup, hbeq]
        · rfl
  | RGB =>
      unfold mapBuffer
      rw [if_neg (by simp)]
      split
      · rfl
      · dsimp only
        split
        · have hbeq : (b == buffer) = false := by simp [hb]
          simp [List.lookup, hbeq]
        · rfl

theorem mapBuffersLoop_raw (env : CamEnv) (width height : Nat) (bufs : List Nat)
    (mapped : List (Nat × Nat)) :
    mapBuffersLoop env StreamType.RAW width height bufs mapped = (true, mapped) := by
  induction bufs with
  | nil => rfl
  | cons b bs ih => simp only [mapBuffersLoop, mapBuffer_raw]; exact ih

theorem mapBuffersLoop_lookup (env : CamEnv) (ty : StreamType)
    (width height : Nat) (bufs : List Nat) (mapped : List (Nat × Nat)) (b : Nat)
    (hb : b ∉ bufs) :
    ((mapBuffersLoop env ty width height bufs mapped).2).lookup b =
      mapped.lookup b := by
  induction bufs generalizing mapped with
  | nil => rfl
  | cons b1 bs ih =>
      have hne : b ≠ b1 := fun he => hb (he ▸ List.mem_cons_self b1 bs)
      have hbs : b ∉ bs := fun hm => hb (List.mem_cons_of_mem b1 hm)
      simp only [mapBuffersLoop]
      cases hm : mapBuffer env mapped b1 ty width height with
      | mk ok1 mapped1 =>
          have hpre : mapped1.lookup b = mapped.lookup b := by
            have := mapBuffer_lookup_ne env mapped b1 ty width height b hne
            rw [hm] at this
            exact this
          cases ok1 with
          | false => dsimp only; rw [hpre]
          | true => dsimp only; rw [ih mapped1 hbs, hpre]

theorem typesGetOrInsert_found (m : List (Nat × StreamType)) (k : Nat)
    (t : StreamType) (h : m.lookup k = some t) :
    typesGetOrInsert m k = (t, m) := by
  unfold typesGetOrInsert
  rw [h]

theorem typesGetOrInsert_lookup (m : List (Nat × StreamType)) (k k1 : Nat)
    (t : StreamType) (h : m.lookup k1 = some t) :
    ((typesGetOrInsert m k).2).lookup k1 = some t := by
  unfold typesGetOrInsert
  cases hm : m.lookup k with
  | some t2 => exact h
  | none =>
      dsimp only
      have hne : k1 ≠ k := by
        intro he
        rw [he, hm] at h
        cases h
      have hbeq : (k1 == k) = false := by simp [hne]
      simp [List.lookup, hbeq]
      exact h

theorem allocLoop_raw_inv (env : CamEnv) (cfgs : List ConfiguredStream)
    (s : SMState) (rid : Nat)
    (hty : s.streamTypes.lookup rid = some StreamType.RAW)
    (hdisj : ∀ sc ∈ cfgs, sc.streamId ≠ rid →
      ∀ b ∈ env.buffersOf sc.streamId, b ∉ env.buffersOf rid)
    (hmap : ∀ b ∈ env.buffersOf rid, s.mappedBuffers.lookup b = none) :
    (∀ b ∈ env.buffersOf rid,
        ((allocLoop env cfgs s).2).mappedBuffers.lookup b = none) ∧
      ((allocLoop env cfgs s).2).streamTypes.lookup rid = some StreamType.RAW := by
  induction cfgs generalizing s with
  | nil => exact ⟨hmap, hty⟩
  | cons sc rest ih =>
      simp only [allocLoop]
      cases hok : env.allocOk sc.streamId with
      | false => rw [if_pos rfl]; exact ⟨hmap, hty⟩
      | true =>
          rw [if_neg (by simp)]
          by_cases hid : sc.streamId = rid
          · rw [hid, typesGetOrInsert_found s.streamTypes rid StreamType.RAW hty]
            dsimp only
            rw [mapBuffersLoop_raw]
            exact ih { s with
                streamBuffers := (rid, env.buffersOf rid) :: s.streamBuffers }
              hty (fun sc1 h1 => hdisj sc1 (List.mem_cons_of_mem sc h1)) hmap
          · have hty1 : ((typesGetOrInsert s.streamTypes sc.streamId).2).lookup rid =
                some StreamType.RAW :=
              typesGetOrInsert_lookup s.streamTypes sc.streamId rid StreamType.RAW hty
            have hnotin : ∀ b ∈ env.buffersOf rid, b ∉ env.buffersOf sc.streamId := by
              intro b hbr hbs
              exact hdisj sc (List.mem_cons_self sc rest) hid b hbs hbr
            cases hml : mapBuffersLoop env
                (typesGetOrInsert s.streamTypes sc.streamId).1 sc.width sc.height
                (env.buffersOf sc.streamId) s.mappedBuffers with
            | mk ok1 mapped1 =>
                have hpre : ∀ b ∈ env.buffersOf rid,
                    mapped1.lookup b = s.mappedBuffers.lookup b := by
                  intro b hbr
                  have := mapBuffersLoop_lookup env
                    (typesGetOrInsert s.streamTypes sc.streamId).1 sc.width sc.height
                    (env.buffersOf sc.streamId) s.mappedBuffers b (hnotin b hbr)
                  rw [hml] at this
                  exact this
                cases ok1 with
                | false =>
                    dsimp only
                    exact ⟨fun b hbr => (hpre b hbr).trans (hmap b hbr), hty1⟩
                | true =>
                    dsimp only
                    exact ih _ hty1
                      (fun sc1 h1 => hdisj sc1 (List.mem_cons_of_mem sc h1))
                      (fun b hbr => (hpre b hbr).trans (hmap b hbr))

theorem buildRequestsLoop_preserves (env : CamEnv) (cfgs : List ConfiguredStream)
    (idxs : List Nat) (s : SMState) :
    ((buildRequestsLoop env cfgs idxs s).2).mappedBuffers = s.mappedBuffers ∧
      ((buildRequestsLoop env cfgs idxs s).2).streamTypes = s.streamTypes := by
  induction idxs generalizing s with
  | nil => exact ⟨rfl, rfl⟩
  | cons i rest ih =>
      simp only [buildRequestsLoop]
      cases hok : env.createRequestOk i with
      | false => rw [if_pos rfl]; exact ⟨rfl, rfl⟩
      | true =>
          rw [if_neg (by simp)]
          exact ih _

theorem allocateBuffers_raw_unmapped (env : CamEnv) (s : SMState)
    (cfgs : List ConfiguredStream) (ok : Bool) (s2 : SMState) (rid : Nat)
    (hcfg : s.config = some cfgs)
    (hty : s.streamTypes.lookup rid = some StreamType.RAW)
    (hdisj : ∀ sc ∈ cfgs, sc.streamId ≠ rid →
      ∀ b ∈ env.buffersOf sc.streamId, b ∉ env.buffersOf rid)
    (hmap : ∀ b ∈ env.buffersOf rid, s.mappedBuffers.lookup b = none)
    (halloc : allocateBuffers env s = some (ok, s2)) :
    (∀ b ∈ env.buffersOf rid, s2.mappedBuffers.lookup b = none) ∧
      s2.streamTypes.lookup rid = some StreamType.RAW := by
  unfold allocateBuffers at halloc
  rw [hcfg] at halloc
  dsimp only at halloc
  have hinv := allocLoop_raw_inv env cfgs s rid hty hdisj hmap
  cases hal : allocLoop env cfgs s with
  | mk ok1 sA =>
      rw [hal] at halloc hinv
      cases ok1 with
      | false =>
          dsimp only at halloc hinv
          cases halloc
          exact hinv
      | true =>
          dsimp only at halloc hinv
          have hbr := buildRequestsLoop_preserves env cfgs (List.range 6) sA
          cases hbrr : buildRequestsLoop env cfgs (List.range 6) sA with
          | mk ok2 sB =>
              rw [hbrr] at halloc hbr
              dsimp only at hbr
              cases halloc
              exact ⟨fun b hbr1 => by rw [hbr.1]; exact hinv.1 b hbr1,
                by rw [hbr.2]; exact hinv.2⟩

theorem configure_mapped (env : CamEnv) (rawStream : Option StreamConfig)
    (streams : List StreamConfig) (s0 : SMState) (ok : Bool) (s1 : SMState)
    (hconf : configure env rawStream streams s0 = some (ok, s1)) :
    s1.mappedBuffers = s0.mappedBuffers := by
  unfold configure at hconf
  dsimp only at hconf
  cases hg : env.genConfig (buildRolesConfigs rawStream streams).1 with
  | none =>
      rw [hg] at hconf
      dsimp only at hconf
      cases hconf
      rfl
  | some gen =>
      rw [hg] at hconf
      dsimp only at hconf
      cases hcl : configureLoop (buildRolesConfigs rawStream streams).2 gen
          s0.jpegWidth s0.jpegHeight with
      | none => rw [hcl] at hconf; cases hconf
      | some mj =>
          obtain ⟨mutated, jw, jh⟩ := mj
          rw [hcl] at hconf
          dsimp only at hconf
          cases hv : env.validate mutated with
          | none =>
              rw [hv] at hconf
              dsimp only at hconf
              cases hconf
              rfl
          | some validated =>
              rw [hv] at hconf
              dsimp only at hconf
              cases hap : env.applyOk validated with
              | false =>
                  rw [hap] at hconf
                  rw [if_neg (by simp)] at hconf
                  cases hconf
                  rfl
              | true =>
                  rw [hap] at hconf
                  rw [if_pos rfl] at hconf
                  cases hbst : buildStreamTypes (buildRolesConfigs rawStream streams).2
                      validated [] with
                  | none => rw [hbst] at hconf; cases hconf
                  | some st =>
                      rw [hbst] at hconf
                      dsimp only at hconf
                      cases hconf
                      rfl

theorem processBuffers_spec (impl : ImplState) (sm : SMState) (ts seq : Nat)
    (bufs : List (Nat × Nat)) :
    ∀ d ∈ processBuffers impl sm ts seq bufs,
      getStreamType sm d.streamId ≠ StreamType.RAW ∧
        (sm.mappedBuffers.lookup d.bufferId).isSome := by
  induction bufs with
  | nil => intro d hd; simp [processBuffers] at hd
  | cons sb rest ih =>
      obtain ⟨stream, buffer⟩ := sb
      intro d hd
      simp only [processBuffers] at hd
      by_cases hraw : getStreamType sm stream = StreamType.RAW
      · rw [if_pos hraw] at hd
        exact ih d hd
      · rw [if_neg hraw] at hd
        cases hlk : sm.mappedBuffers.lookup buffer with
        | none =>
            rw [hlk] at hd
            exact ih d hd
        | some size =>
            rw [hlk] at hd
            dsimp only at hd
            cases hty : getStreamType sm stream with
            | RAW => exact absurd hty hraw
            | RGB =>
                rw [hty] at hd
                rcases List.mem_cons.mp hd with h1 | h1
                · rw [h1]
                  exact ⟨by rw [Delivery.streamId]; exact hraw,
                    by rw [Delivery.bufferId, hlk]; rfl⟩
                · exact ih d h1
            | JPEG =>
                rw [hty] at hd
                rcases List.mem_cons.mp hd with h1 | h1
                · rw [h1]
                  exact ⟨by rw [Delivery.streamId]; exact hraw,
                    by rw [Delivery.bufferId, hlk]; rfl⟩
                · exact ih d h1

theorem requestComplete_deliveries_spec (impl : ImplState) (sm : SMState)
    (req : CompletedRequest) :
    ∀ d ∈ (requestComplete impl sm req).deliveries,
      getStreamType sm d.streamId ≠ StreamType.RAW ∧
        (sm.mappedBuffers.lookup d.bufferId).isSome := by
  unfold requestComplete
  split
  · intro d hd; simp at hd
  · cases impl.pendingControls with
    | some pc =>
        dsimp only
        exact processBuffers_spec _ sm _ req.sequence req.buffers
    | none =>
        dsimp only
        exact processBuffers_spec _ sm _ req.sequence req.buffers

/-- C4: for every successfully configured stream set (raw explicit or not),
`mapBuffer` maps no RAW buffer, after `allocateBuffers` no buffer of a
RAW-typed stream is in the mapped-buffer table, and the completion handler
never delivers a frame from a RAW-typed stream nor from any buffer of a
RAW-typed stream. -/
theorem C4_raw_never_mapped_never_delivered (env : CamEnv)
    (rawStream : Option StreamConfig) (streams : List StreamConfig)
    (s0 s1 s2 : SMState) (ok : Bool) (cfgs : List ConfiguredStream)
    (impl : ImplState) (req : CompletedRequest)
    (h0 : s0.mappedBuffers = [])
    (hconf : configure env rawStream streams s0 = some (true, s1))
    (hcfg : s1.config = some cfgs)
    (hdisj : ∀ sc1 ∈ cfgs, ∀ sc2 ∈ cfgs, sc1.streamId ≠ sc2.streamId →
      ∀ b ∈ env.buffersOf sc1.streamId, b ∉ env.buffersOf sc2.streamId)
    (halloc : allocateBuffers env s1 = some (ok, s2)) :
    (∀ mapped buffer width height,
        mapBuffer env mapped buffer StreamType.RAW width height = (true, mapped)) ∧
      (∀ sc ∈ cfgs, s1.streamTypes.lookup sc.streamId = some StreamType.RAW →
        ∀ b ∈ env.buffersOf sc.streamId, s2.mappedBuffers.lookup b = none) ∧
      (∀ d ∈ (requestComplete impl s2 req).deliveries,
        getStreamType s2 d.streamId ≠ StreamType.RAW) ∧
      (∀ d ∈ (requestComplete impl s2 req).deliveries, ∀ sc ∈ cfgs,
        s1.streamTypes.lookup sc.streamId = some StreamType.RAW →
        d.bufferId ∉ env.buffersOf sc.streamId) := by
  have hmap1 : ∀ b, s1.mappedBuffers.lookup b = none := by
    intro b
    rw [configure_mapped env rawStream streams s0 true s1 hconf, h0]
    rfl
  have hpart2 : ∀ sc ∈ cfgs, s1.streamTypes.lookup sc.streamId = some StreamType.RAW →
      ∀ b ∈ env.buffersOf sc.streamId, s2.mappedBuffers.lookup b = none := by
    intro sc hsc hty b hb
    exact (allocateBuffers_raw_unmapped env s1 cfgs ok s2 sc.streamId hcfg hty
      (fun sc1 h1 hne b1 hb1 => hdisj sc1 h1 sc hsc hne b1 hb1)
      (fun b1 _ => hmap1 b1) halloc).1 b hb
  refine ⟨fun mapped buffer width height => mapBuffer_raw env mapped buffer width height,
    hpart2, ?_, ?_⟩
  · intro d hd
    exact (requestComplete_deliveries_spec impl s2 req d hd).1
  · intro d hd sc hsc hty hb
    have h1 := (requestComplete_deliveries_spec impl s2 req d hd).2
    rw [hpart2 sc hsc hty d.bufferId hb] at h1
    cases h1


/-- Witness for C4: an explicit RAW stream plus one RGB stream, configured
and allocated through the concrete oracle, then one completed request
carrying a RAW and an RGB buffer. -/
theorem C4_raw_never_mapped_never_delivered_witness :
    (initSMState.mappedBuffers = []) ∧
      (configure camEnvW (some rawStreamW) streamsW initSMState = some (true, smW1)) ∧
      (smW1.config = some cfgsW) ∧
      (∀ sc1 ∈ cfgsW, ∀ sc2 ∈ cfgsW, sc1.streamId ≠ sc2.streamId →
        ∀ b ∈ camEnvW.buffersOf sc1.streamId, b ∉ camEnvW.buffersOf sc2.streamId) ∧
      (allocateBuffers camEnvW smW1 = some (true, smW2)) ∧
      ((∀ mapped buffer width height,
          mapBuffer camEnvW mapped buffer StreamType.RAW width height = (true, mapped)) ∧
        (∀ sc ∈ cfgsW, smW1.streamTypes.lookup sc.streamId = some StreamType.RAW →
          ∀ b ∈ camEnvW.buffersOf sc.streamId, smW2.mappedBuffers.lookup b = none) ∧
        (∀ d ∈ (requestComplete {} smW2 reqW).deliveries,
          getStreamType smW2 d.streamId ≠ StreamType.RAW) ∧
        (∀ d ∈ (requestComplete {} smW2 reqW).deliveries, ∀ sc ∈ cfgsW,
          smW1.streamTypes.lookup sc.streamId = some StreamType.RAW →
          d.bufferId ∉ camEnvW.buffersOf sc.streamId)) :=
  ⟨rfl, by decide, by decide, by decide, by decide,
    C4_raw_never_mapped_never_delivered camEnvW (some rawStreamW) streamsW
      initSMState smW1 smW2 true cfgsW {} reqW rfl (by decide) (by decide)
      (by decide) (by decide)⟩

end Lcam
